import Mathlib

/-!
# TpGroupMixin: the group-membership state machine of telepathy-glib

A shallow embedding of `lib/telepathy-glib/group-mixin.c`.

* Handles (`TpHandle`, a `guint`) are natural numbers; `0` is "no handle".
* A `TpIntSet` and a `TpHandleSet` are finite sets of handles.  A `NULL`
  set argument is `none`.
* A `GHashTable` keyed by handles is an association list; insertion replaces
  the entry of an existing key, as `g_hash_table_insert` does.
* The D-Bus signals emitted on the channel object are appended to the
  `emitted` log of the object.
* The capability flags are a 32-bit `guint` bitmask.
* A `GArray` of handles is a list.  A function returning `gboolean` with a
  `GError **` yields the error set, `none` when it returns TRUE.
* The identifier registry is a parameter of the functions that validate handles;
  the policy callbacks `add_member` and `remove_member` of the channel class are
  parameters too, functions from the object to an updated object or an error.
* For the reference counts, the references the mixin holds on each handle are
  counted by the `_refs` companion of a mutator.
-/

namespace GroupMixin

/-! ## Handles, integer sets, handle sets -/

abbrev TpHandle := Nat

abbrev TpIntSet := Finset Nat

abbrev TpHandleSet := Finset Nat

/-- Modelled from the spec: `intset.c` is not among the sources; a fresh
integer set holds no element. -/
def tp_intset_new : TpIntSet := ∅

/-- Modelled from the spec: `intset.c` is not among the sources; the number of
elements of an integer set. -/
def tp_intset_size (s : TpIntSet) : Nat := s.card

/-- Modelled from the spec: `intset.c` is not among the sources; the union of
two integer sets ("union those removed identifiers into `net_remove`"). -/
def tp_intset_union (a b : TpIntSet) : TpIntSet := a ∪ b

/-- Modelled from the spec: `intset.c` is not among the sources; the elements
of an integer set as an array, each element once, in increasing order. -/
def tp_intset_to_array (s : TpIntSet) : List Nat :=
  Quotient.liftOn s.val (fun l => l.insertionSort (· ≤ ·))
    (fun a b h => List.eq_of_perm_of_sorted
      ((List.perm_insertionSort _ a).trans (h.trans (List.perm_insertionSort _ b).symm))
      (List.sorted_insertionSort _ a) (List.sorted_insertionSort _ b))

/-- Modelled from the spec: `handle-set.c` is not among the sources; membership
test of a handle set. -/
def tp_handle_set_is_member (set : TpHandleSet) (h : TpHandle) : Bool := decide (h ∈ set)

/-- Modelled from the spec: `handle-set.c` is not among the sources; adds one
handle to a handle set. -/
def tp_handle_set_add (set : TpHandleSet) (h : TpHandle) : TpHandleSet := insert h set

/-- Modelled from the spec: `handle-set.c` is not among the sources.  Adds every
element of `add` to `set`; returns the updated set and the set of handles that
newly entered it ("(`members` ∪ `add`) minus previous `members`"). -/
def tp_handle_set_update (set : TpHandleSet) (add : TpIntSet) : TpHandleSet × TpIntSet :=
  (set ∪ add, add \ set)

/-- Modelled from the spec: `handle-set.c` is not among the sources.  Removes
every element of `remove` from `set`; returns the updated set and the set of
handles "actually removed", those of `remove` that were in `set`. -/
def tp_handle_set_difference_update (set : TpHandleSet) (remove : TpIntSet) :
    TpHandleSet × TpIntSet :=
  (set \ remove, remove ∩ set)

/-! ## Hash tables keyed by handles -/

abbrev GHashTable (V : Type) := List (Nat × V)

/-- Modelled from the spec: GLib is not among the sources; an empty table. -/
def g_hash_table_new {V : Type} : GHashTable V := []

/-- Modelled from the spec: GLib is not among the sources; the entry (key and
value) stored under `k`, if any. -/
def g_hash_table_lookup_extended {V : Type} (t : GHashTable V) (k : Nat) : Option (Nat × V) :=
  t.find? (fun p => p.1 == k)

/-- Modelled from the spec: GLib is not among the sources; the value stored
under `k`, if any. -/
def g_hash_table_lookup {V : Type} (t : GHashTable V) (k : Nat) : Option V :=
  (g_hash_table_lookup_extended t k).map Prod.snd

/-- Modelled from the spec: GLib is not among the sources; deletes the entry
stored under `k`, if any. -/
def g_hash_table_remove {V : Type} (t : GHashTable V) (k : Nat) : GHashTable V :=
  t.filter (fun p => p.1 != k)

/-- Modelled from the spec: GLib is not among the sources; stores `v` under
`k`, replacing the entry previously stored under `k`, if any. -/
def g_hash_table_insert {V : Type} (t : GHashTable V) (k : Nat) (v : V) : GHashTable V :=
  (k, v) :: g_hash_table_remove t k

/-! ## Constants of the D-Bus interface -/

/-- Modelled from the spec: the generated enumeration header is not among the
sources; the "can-add" capability flag. -/
def TP_CHANNEL_GROUP_FLAG_CAN_ADD : Nat := 1

/-- Modelled from the spec: the generated enumeration header is not among the
sources; the "invited" reason code. -/
def TP_CHANNEL_GROUP_CHANGE_REASON_INVITED : Nat := 4

/-! ## The mixin state -/

structure LocalPendingInfo where
  actor : TpHandle
  reason : Nat
  message : String
deriving DecidableEq, Repr

def local_pending_info_new (actor : TpHandle) (reason : Nat) (message : String) :
    LocalPendingInfo :=
  { actor := actor, reason := reason, message := message }

structure TpGroupMixinPrivate where
  actors : TpHandleSet
  handle_owners : GHashTable TpHandle
  local_pending_info : GHashTable LocalPendingInfo
deriving DecidableEq

structure TpGroupMixin where
  self_handle : TpHandle
  group_flags : Nat
  members : TpHandleSet
  local_pending : TpHandleSet
  remote_pending : TpHandleSet
  priv : TpGroupMixinPrivate
deriving DecidableEq

/-- Signals of the Group interface emitted on the channel object. -/
inductive GroupSignal where
  | members_changed (message : String) (added removed local_pending remote_pending : List Nat)
      (actor : TpHandle) (reason : Nat)
  | group_flags_changed (added removed : Nat)
deriving DecidableEq, Repr

/-- The channel object: the mixin it embeds and the signals emitted on it so far. -/
structure TpSvcChannelInterfaceGroup where
  mixin : TpGroupMixin
  emitted : List GroupSignal
deriving DecidableEq

def tp_group_mixin_init (self_handle : TpHandle) : TpSvcChannelInterfaceGroup :=
  { mixin :=
      { self_handle := self_handle
        group_flags := 0
        members := ∅
        local_pending := ∅
        remote_pending := ∅
        priv :=
          { handle_owners := g_hash_table_new
            local_pending_info := g_hash_table_new
            actors := ∅ } }
    emitted := [] }

/-! ## Capability flags -/

/-- Bitwise complement of a 32-bit `guint`. -/
def guint_not (x : Nat) : Nat := (x % 4294967296) ^^^ 4294967295

/-- Embedding of `tp_group_mixin_change_flags`: `add` and `remove` are the two
masks; the signal carries the computed `added` and `removed` masks. -/
def tp_group_mixin_change_flags (obj : TpSvcChannelInterfaceGroup) (add remove : Nat) :
    TpSvcChannelInterfaceGroup :=
  let mixin := obj.mixin
  let added := add &&& guint_not mixin.group_flags
  let mixin := { mixin with group_flags := mixin.group_flags ||| added }
  let removed := remove &&& mixin.group_flags
  let mixin := { mixin with group_flags := mixin.group_flags &&& guint_not removed }
  if add ≠ 0 ∨ remove ≠ 0 then
    { mixin := mixin
      emitted := obj.emitted ++ [GroupSignal.group_flags_changed added removed] }
  else
    { obj with mixin := mixin }

/-! ## The pending-invite ledger -/

/-- Modelled from the spec: `intset.c` is not among the sources; calls `func`
on every element of the set, in increasing order, threading the state. -/
def tp_intset_foreach {σ : Type} (set : TpIntSet) (func : σ → Nat → σ) (data : σ) : σ :=
  (tp_intset_to_array set).foldl func data

def local_pending_added_foreach (mixin : TpGroupMixin) (info : LocalPendingInfo) (i : Nat) :
    TpGroupMixin :=
  { mixin with
    priv := { mixin.priv with
      local_pending_info :=
        g_hash_table_insert mixin.priv.local_pending_info i
          (local_pending_info_new info.actor info.reason info.message) } }

def local_pending_added (mixin : TpGroupMixin) (added : TpIntSet) (actor : TpHandle)
    (reason : Nat) (message : String) : TpGroupMixin :=
  let info : LocalPendingInfo := { actor := actor, reason := reason, message := message }
  tp_intset_foreach added (fun m i => local_pending_added_foreach m info i) mixin

def local_pending_remove_foreach (mixin : TpGroupMixin) (i : Nat) : TpGroupMixin :=
  { mixin with
    priv := { mixin.priv with
      local_pending_info := g_hash_table_remove mixin.priv.local_pending_info i } }

def local_pending_remove (mixin : TpGroupMixin) (removed : TpIntSet) : TpGroupMixin :=
  tp_intset_foreach removed local_pending_remove_foreach mixin

/-- Embedding of `local_pending_members_with_info_foreach`: appends the tuple of
handle `i` to the array; `none` when the `g_assert` on the lookup fails. -/
def local_pending_members_with_info_foreach (mixin : TpGroupMixin)
    (array : Option (List (Nat × Nat × Nat × String))) (i : Nat) :
    Option (List (Nat × Nat × Nat × String)) :=
  match array with
  | none => none
  | some arr =>
    match g_hash_table_lookup mixin.priv.local_pending_info i with
    | none => none
    | some info => some (arr ++ [(i, info.actor, info.reason, info.message)])

/-- Embedding of `tp_group_mixin_get_local_pending_members_with_info`: the
returned array, or `none` when an assertion fails. -/
def tp_group_mixin_get_local_pending_members_with_info (obj : TpSvcChannelInterfaceGroup) :
    Option (List (Nat × Nat × Nat × String)) :=
  tp_intset_foreach obj.mixin.local_pending
    (local_pending_members_with_info_foreach obj.mixin) (some [])

/-! ## The owner map -/

def tp_group_mixin_add_handle_owner (obj : TpSvcChannelInterfaceGroup)
    (local_handle owner_handle : TpHandle) : TpSvcChannelInterfaceGroup :=
  { obj with
    mixin := { obj.mixin with
      priv := { obj.mixin.priv with
        handle_owners :=
          g_hash_table_insert obj.mixin.priv.handle_owners local_handle owner_handle } } }

def remove_handle_owners_if_exist (mixin : TpGroupMixin) (array : List Nat) : TpGroupMixin :=
  array.foldl
    (fun m handle =>
      match g_hash_table_lookup_extended m.priv.handle_owners handle with
      | some _ =>
        { m with
          priv := { m.priv with
            handle_owners := g_hash_table_remove m.priv.handle_owners handle } }
      | none => m)
    mixin

/-! ## The transition engine -/

/-- Values computed by the first part of `tp_group_mixin_change_members`. -/
structure MemberDeltas where
  mixin : TpGroupMixin
  new_add : TpIntSet
  new_remove : TpIntSet
  new_local_pending : TpIntSet
  new_remote_pending : TpIntSet

/-- First part of `tp_group_mixin_change_members`, up to the test that decides
whether the signal is emitted: the updates of the three handle sets and of the
pending-invite ledger, and the four net delta sets. -/
def tp_group_mixin_change_members_update (mixin : TpGroupMixin) (message : String)
    (add remove local_pending remote_pending : Option TpIntSet)
    (actor : TpHandle) (reason : Nat) : MemberDeltas :=
  let empty : TpIntSet := tp_intset_new
  let add : TpIntSet := add.getD empty
  let remove : TpIntSet := remove.getD empty
  let local_pending : TpIntSet := local_pending.getD empty
  let remote_pending : TpIntSet := remote_pending.getD empty
  -- members + add
  let r : TpHandleSet × TpIntSet := tp_handle_set_update mixin.members add
  let mixin : TpGroupMixin := { mixin with members := r.1 }
  let new_add : TpIntSet := r.2
  -- members - remove
  let r : TpHandleSet × TpIntSet := tp_handle_set_difference_update mixin.members remove
  let mixin : TpGroupMixin := { mixin with members := r.1 }
  let new_remove : TpIntSet := r.2
  -- members - local_pending
  let r : TpHandleSet × TpIntSet := tp_handle_set_difference_update mixin.members local_pending
  let mixin : TpGroupMixin := { mixin with members := r.1 }
  -- members - remote_pending
  let r : TpHandleSet × TpIntSet := tp_handle_set_difference_update mixin.members remote_pending
  let mixin : TpGroupMixin := { mixin with members := r.1 }
  -- local pending + local_pending
  let r : TpHandleSet × TpIntSet := tp_handle_set_update mixin.local_pending local_pending
  let mixin : TpGroupMixin := { mixin with local_pending := r.1 }
  let new_local_pending : TpIntSet := r.2
  let mixin : TpGroupMixin := local_pending_added mixin local_pending actor reason message
  -- local pending - add
  let r : TpHandleSet × TpIntSet := tp_handle_set_difference_update mixin.local_pending add
  let mixin : TpGroupMixin := { mixin with local_pending := r.1 }
  let mixin : TpGroupMixin := local_pending_remove mixin r.2
  -- local pending - remove
  let r : TpHandleSet × TpIntSet := tp_handle_set_difference_update mixin.local_pending remove
  let mixin : TpGroupMixin := { mixin with local_pending := r.1 }
  let mixin : TpGroupMixin := local_pending_remove mixin r.2
  let new_remove : TpIntSet := tp_intset_union new_remove r.2
  -- local pending - remote_pending
  let r : TpHandleSet × TpIntSet := tp_handle_set_difference_update mixin.local_pending remote_pending
  let mixin : TpGroupMixin := { mixin with local_pending := r.1 }
  let mixin : TpGroupMixin := local_pending_remove mixin r.2
  -- remote pending + remote_pending
  let r : TpHandleSet × TpIntSet := tp_handle_set_update mixin.remote_pending remote_pending
  let mixin : TpGroupMixin := { mixin with remote_pending := r.1 }
  let new_remote_pending : TpIntSet := r.2
  -- remote pending - add
  let r : TpHandleSet × TpIntSet := tp_handle_set_difference_update mixin.remote_pending add
  let mixin : TpGroupMixin := { mixin with remote_pending := r.1 }
  -- remote pending - remove
  let r : TpHandleSet × TpIntSet := tp_handle_set_difference_update mixin.remote_pending remove
  let mixin : TpGroupMixin := { mixin with remote_pending := r.1 }
  let new_remove : TpIntSet := tp_intset_union new_remove r.2
  -- remote pending - local_pending
  let r : TpHandleSet × TpIntSet := tp_handle_set_difference_update mixin.remote_pending local_pending
  let mixin : TpGroupMixin := { mixin with remote_pending := r.1 }
  { mixin := mixin
    new_add := new_add
    new_remove := new_remove
    new_local_pending := new_local_pending
    new_remote_pending := new_remote_pending }

/-- Embedding of `tp_group_mixin_change_members`: the updated object and the
returned boolean. -/
def tp_group_mixin_change_members (obj : TpSvcChannelInterfaceGroup) (message : String)
    (add remove local_pending remote_pending : Option TpIntSet)
    (actor : TpHandle) (reason : Nat) : TpSvcChannelInterfaceGroup × Bool :=
  let d := tp_group_mixin_change_members_update obj.mixin message add remove local_pending
    remote_pending actor reason
  if tp_intset_size d.new_add > 0 ∨ tp_intset_size d.new_remove > 0 ∨
      tp_intset_size d.new_local_pending > 0 ∨ tp_intset_size d.new_remote_pending > 0 then
    -- translate intsets to arrays
    let arr_add := tp_intset_to_array d.new_add
    let arr_remove := tp_intset_to_array d.new_remove
    let arr_local := tp_intset_to_array d.new_local_pending
    let arr_remote := tp_intset_to_array d.new_remote_pending
    -- remove any handle owner mappings
    let mixin := remove_handle_owners_if_exist d.mixin arr_remove
    let mixin :=
      if actor ≠ 0 then
        { mixin with priv := { mixin.priv with actors := tp_handle_set_add mixin.priv.actors actor } }
      else mixin
    -- emit signal
    ({ mixin := mixin
       emitted := obj.emitted ++
         [GroupSignal.members_changed message arr_add arr_remove arr_local arr_remote
            actor reason] }, true)
  else
    ({ obj with mixin := d.mixin }, false)

/-- States reachable from `tp_group_mixin_init` by the mutators of the mixin. -/
inductive Reachable : TpSvcChannelInterfaceGroup → Prop where
  | init (self_handle : TpHandle) : Reachable (tp_group_mixin_init self_handle)
  | change_members {obj : TpSvcChannelInterfaceGroup} (h : Reachable obj) (message : String)
      (add remove local_pending remote_pending : Option TpIntSet)
      (actor : TpHandle) (reason : Nat) :
      Reachable (tp_group_mixin_change_members obj message add remove local_pending
        remote_pending actor reason).1
  | change_flags {obj : TpSvcChannelInterfaceGroup} (h : Reachable obj) (add remove : Nat) :
      Reachable (tp_group_mixin_change_flags obj add remove)
  | add_handle_owner {obj : TpSvcChannelInterfaceGroup} (h : Reachable obj)
      (local_handle owner_handle : TpHandle) :
      Reachable (tp_group_mixin_add_handle_owner obj local_handle owner_handle)

/-! ## Batch requests: adding and removing members -/

/-- Modelled from the spec: the generated enumeration header is not among the
sources; the "can-remove" capability flag. -/
def TP_CHANNEL_GROUP_FLAG_CAN_REMOVE : Nat := 2

/-- Modelled from the spec: the generated enumeration header is not among the
sources; the "can-rescind" capability flag. -/
def TP_CHANNEL_GROUP_FLAG_CAN_RESCIND : Nat := 4

/-- Modelled from the spec: the generated enumeration header is not among the
sources; the "channel-specific handles" capability flag. -/
def TP_CHANNEL_GROUP_FLAG_CHANNEL_SPECIFIC_HANDLES : Nat := 256

/-- Modelled from the spec: `errors.h` is not among the sources; the error
kinds of the spec. -/
inductive TpError where
  | TP_ERROR_INVALID_ARGUMENT
  | TP_ERROR_PERMISSION_DENIED
  | TP_ERROR_NOT_AVAILABLE
deriving DecidableEq, Repr

/-- An error set by `g_set_error`: its code and the handle its message names,
if it names one. -/
structure GError where
  code : TpError
  handle : Option TpHandle
deriving DecidableEq, Repr

/-- Modelled from the spec: `handle-repo.c` is not among the sources; the
identifier registry, as far as validation goes: `is_valid` tells the handles
it accepts. -/
structure TpHandleRepoIface where
  is_valid : TpHandle → Bool

/-- Modelled from the spec: `handle-repo.c` is not among the sources.  Checks
the handles of the array in order; the error, if any, is invalid-argument for
the first handle the registry rejects (`none` when the function returns TRUE).
Handle 0 is skipped when `allow_zero` is set. -/
def tp_handles_are_valid (repo : TpHandleRepoIface) (array : List TpHandle)
    (allow_zero : Bool) : Option GError :=
  match array with
  | [] => none
  | handle :: rest =>
    if handle = 0 ∧ allow_zero = true then tp_handles_are_valid repo rest allow_zero
    else if repo.is_valid handle = false then
      some { code := TpError.TP_ERROR_INVALID_ARGUMENT, handle := some handle }
    else tp_handles_are_valid repo rest allow_zero

/-- A policy callback of the channel class (`add_member` or `remove_member`):
from the object, a handle and the message to the updated object, or an error
that leaves the object as it was. -/
abbrev TpGroupMixinMemberFunc :=
  TpSvcChannelInterfaceGroup → TpHandle → String → Except GError TpSvcChannelInterfaceGroup

/-- Outcome of `tp_group_mixin_add_members` and `tp_group_mixin_remove_members`:
the object after the call, the error set (`none` when the function returns
TRUE), and the handles the policy callback was invoked on, in order. -/
structure BatchResult where
  obj : TpSvcChannelInterfaceGroup
  error : Option GError
  calls : List TpHandle

/-- First loop of `tp_group_mixin_add_members`, "check that adding is allowed
by flags": the error of the first handle refused, if any. -/
def add_members_check_flags (mixin : TpGroupMixin) (contacts : List TpHandle) :
    Option GError :=
  match contacts with
  | [] => none
  | handle :: rest =>
    if mixin.group_flags &&& TP_CHANNEL_GROUP_FLAG_CAN_ADD = 0 ∧
        tp_handle_set_is_member mixin.local_pending handle = false then
      some { code := TpError.TP_ERROR_PERMISSION_DENIED, handle := some handle }
    else add_members_check_flags mixin rest

/-- Validation part of `tp_group_mixin_add_members`: the registry check, then
the flag check. -/
def add_members_validate (repo : TpHandleRepoIface) (mixin : TpGroupMixin)
    (contacts : List TpHandle) : Option GError :=
  match tp_handles_are_valid repo contacts false with
  | some e => some e
  | none => add_members_check_flags mixin contacts

/-- Second loop of `tp_group_mixin_add_members`, "add handle by handle". -/
def add_members_loop (add_member : TpGroupMixinMemberFunc)
    (obj : TpSvcChannelInterfaceGroup) (contacts : List TpHandle) (message : String) :
    BatchResult :=
  match contacts with
  | [] => { obj := obj, error := none, calls := [] }
  | handle :: rest =>
    if tp_handle_set_is_member obj.mixin.members handle = true then
      -- already a member, skipping
      add_members_loop add_member obj rest message
    else
      match add_member obj handle message with
      | Except.error e => { obj := obj, error := some e, calls := [handle] }
      | Except.ok obj2 =>
        let r := add_members_loop add_member obj2 rest message
        { obj := r.obj, error := r.error, calls := handle :: r.calls }

/-- Embedding of `tp_group_mixin_add_members`. -/
def tp_group_mixin_add_members (repo : TpHandleRepoIface)
    (add_member : TpGroupMixinMemberFunc) (obj : TpSvcChannelInterfaceGroup)
    (contacts : List TpHandle) (message : String) : BatchResult :=
  match add_members_validate repo obj.mixin contacts with
  | some e => { obj := obj, error := some e, calls := [] }
  | none => add_members_loop add_member obj contacts message

/-- First loop of `tp_group_mixin_remove_members`, "check removing is allowed
by flags": the error of the first handle refused, if any. -/
def remove_members_check_flags (mixin : TpGroupMixin) (contacts : List TpHandle) :
    Option GError :=
  match contacts with
  | [] => none
  | handle :: rest =>
    if tp_handle_set_is_member mixin.members handle = true then
      if mixin.group_flags &&& TP_CHANNEL_GROUP_FLAG_CAN_REMOVE = 0 then
        some { code := TpError.TP_ERROR_PERMISSION_DENIED, handle := some handle }
      else remove_members_check_flags mixin rest
    else if tp_handle_set_is_member mixin.remote_pending handle = true then
      if mixin.group_flags &&& TP_CHANNEL_GROUP_FLAG_CAN_RESCIND = 0 then
        some { code := TpError.TP_ERROR_PERMISSION_DENIED, handle := some handle }
      else remove_members_check_flags mixin rest
    else if tp_handle_set_is_member mixin.local_pending handle = false then
      some { code := TpError.TP_ERROR_NOT_AVAILABLE, handle := some handle }
    else remove_members_check_flags mixin rest

/-- Validation part of `tp_group_mixin_remove_members`: the registry check, then
the flag check. -/
def remove_members_validate (repo : TpHandleRepoIface) (mixin : TpGroupMixin)
    (contacts : List TpHandle) : Option GError :=
  match tp_handles_are_valid repo contacts false with
  | some e => some e
  | none => remove_members_check_flags mixin contacts

/-- Second loop of `tp_group_mixin_remove_members`, "remove handle by handle". -/
def remove_members_loop (remove_member : TpGroupMixinMemberFunc)
    (obj : TpSvcChannelInterfaceGroup) (contacts : List TpHandle) (message : String) :
    BatchResult :=
  match contacts with
  | [] => { obj := obj, error := none, calls := [] }
  | handle :: rest =>
    match remove_member obj handle message with
    | Except.error e => { obj := obj, error := some e, calls := [handle] }
    | Except.ok obj2 =>
      let r := remove_members_loop remove_member obj2 rest message
      { obj := r.obj, error := r.error, calls := handle :: r.calls }

/-- Embedding of `tp_group_mixin_remove_members`. -/
def tp_group_mixin_remove_members (repo : TpHandleRepoIface)
    (remove_member : TpGroupMixinMemberFunc) (obj : TpSvcChannelInterfaceGroup)
    (contacts : List TpHandle) (message : String) : BatchResult :=
  match remove_members_validate repo obj.mixin contacts with
  | some e => { obj := obj, error := some e, calls := [] }
  | none => remove_members_loop remove_member obj contacts message

/-- The handles a removal request is refused for, in the words of the spec: a
member without "can-remove", a remote-pending non-member without "can-rescind",
or a handle in none of the three sets. -/
def spec_remove_refused (mixin : TpGroupMixin) (h : TpHandle) : Bool :=
  decide ((h ∈ mixin.members ∧ mixin.group_flags &&& TP_CHANNEL_GROUP_FLAG_CAN_REMOVE = 0) ∨
    (h ∉ mixin.members ∧ h ∈ mixin.remote_pending ∧
      mixin.group_flags &&& TP_CHANNEL_GROUP_FLAG_CAN_RESCIND = 0) ∨
    (h ∉ mixin.members ∧ h ∉ mixin.local_pending ∧ h ∉ mixin.remote_pending))

/-- A sample `add_member` policy callback: refuses handle 9 and adds every other
handle to `members` through `tp_group_mixin_change_members`. -/
def sample_add_member : TpGroupMixinMemberFunc := fun obj handle message =>
  if handle = 9 then
    Except.error { code := TpError.TP_ERROR_NOT_AVAILABLE, handle := some handle }
  else
    Except.ok (tp_group_mixin_change_members obj message (some {handle}) none none none 0 0).1

/-- A sample `remove_member` policy callback: refuses handle 9 and removes every
other handle through `tp_group_mixin_change_members`. -/
def sample_remove_member : TpGroupMixinMemberFunc := fun obj handle message =>
  if handle = 9 then
    Except.error { code := TpError.TP_ERROR_NOT_AVAILABLE, handle := some handle }
  else
    Except.ok (tp_group_mixin_change_members obj message none (some {handle}) none none 0 0).1

/-- A sample registry: every non-zero handle is valid. -/
def sample_repo : TpHandleRepoIface := { is_valid := fun h => decide (h ≠ 0) }

/-! ## Owner lookup -/

/-- Loop of `tp_group_mixin_get_handle_owners`: the owners appended to `ret`,
or the error of the first handle that is not a member. -/
def get_handle_owners_loop (mixin : TpGroupMixin) (handles : List TpHandle)
    (ret : List TpHandle) : Except GError (List TpHandle) :=
  match handles with
  | [] => Except.ok ret
  | local_handle :: rest =>
    if tp_handle_set_is_member mixin.members local_handle = false then
      Except.error { code := TpError.TP_ERROR_INVALID_ARGUMENT, handle := some local_handle }
    else
      let owner_handle := (g_hash_table_lookup mixin.priv.handle_owners local_handle).getD 0
      get_handle_owners_loop mixin rest (ret ++ [owner_handle])

/-- Embedding of `tp_group_mixin_get_handle_owners`: the returned array, or the
error set. -/
def tp_group_mixin_get_handle_owners (repo : TpHandleRepoIface)
    (obj : TpSvcChannelInterfaceGroup) (handles : List TpHandle) :
    Except GError (List TpHandle) :=
  if obj.mixin.group_flags &&& TP_CHANNEL_GROUP_FLAG_CHANNEL_SPECIFIC_HANDLES = 0 then
    Except.error { code := TpError.TP_ERROR_NOT_AVAILABLE, handle := none }
  else
    match tp_handles_are_valid repo handles false with
    | some e => Except.error e
    | none => get_handle_owners_loop obj.mixin handles []

/-! ## Self handle -/

/-- Embedding of `tp_group_mixin_get_self_handle`: the object after the call and
the outcome, the handle written to `ret` (the function returns TRUE on every
path and sets no error). -/
def tp_group_mixin_get_self_handle (obj : TpSvcChannelInterfaceGroup) :
    TpSvcChannelInterfaceGroup × Except GError TpHandle :=
  let mixin := obj.mixin
  if tp_handle_set_is_member mixin.members mixin.self_handle = true ∨
      tp_handle_set_is_member mixin.local_pending mixin.self_handle = true ∨
      tp_handle_set_is_member mixin.remote_pending mixin.self_handle = true then
    (obj, Except.ok mixin.self_handle)
  else
    (obj, Except.ok 0)

/-! ## Reference counts -/

/-- Modelled from the spec: `handle-repo.c` is not among the sources; the
registry as an explicit reference count per handle, here the number of
references the mixin holds on each handle. -/
abbrev HandleRefs := TpHandle → Int

/-- Modelled from the spec: `handle-repo.c` is not among the sources; acquires
one reference on `handle`. -/
def tp_handle_ref (refs : HandleRefs) (handle : TpHandle) : HandleRefs :=
  fun x => if x = handle then refs x + 1 else refs x

/-- References held after `tp_group_mixin_init`: the sets and tables are
created empty and no handle is referenced. -/
def tp_group_mixin_init_refs : HandleRefs := fun _ => 0

/-- References held after `tp_group_mixin_add_handle_owner`: the call
references `local_handle` and `owner_handle`, and releases none. -/
def tp_group_mixin_add_handle_owner_refs (refs : HandleRefs)
    (local_handle owner_handle : TpHandle) : HandleRefs :=
  tp_handle_ref (tp_handle_ref refs local_handle) owner_handle

/-- Number of slots of the mixin holding handle `x`: membership in each of the
three sets and in the actor ledger, each actor field of the pending-invite
ledger, each key and each value of the owner map. -/
def slots_holding (mixin : TpGroupMixin) (x : TpHandle) : Int :=
  (if x ∈ mixin.members then 1 else 0) +
  (if x ∈ mixin.local_pending then 1 else 0) +
  (if x ∈ mixin.remote_pending then 1 else 0) +
  (if x ∈ mixin.priv.actors then 1 else 0) +
  ((mixin.priv.local_pending_info.filter (fun p => decide (p.2.actor = x))).length : Int) +
  ((mixin.priv.handle_owners.filter (fun p => decide (p.1 = x))).length : Int) +
  ((mixin.priv.handle_owners.filter (fun p => decide (p.2 = x))).length : Int)

/-! ## Invariants -/

/-- The three handle sets are pairwise disjoint. -/
def MembershipDisjoint (mixin : TpGroupMixin) : Prop :=
  Disjoint mixin.members mixin.local_pending ∧
  Disjoint mixin.members mixin.remote_pending ∧
  Disjoint mixin.local_pending mixin.remote_pending

instance (mixin : TpGroupMixin) : Decidable (MembershipDisjoint mixin) :=
  inferInstanceAs (Decidable (_ ∧ _ ∧ _))

/-- The pending-invite ledger holds one entry per local-pending handle and no
other entry. -/
def LedgerMatches (mixin : TpGroupMixin) : Prop :=
  (mixin.priv.local_pending_info.map Prod.fst).Nodup ∧
  (mixin.priv.local_pending_info.map Prod.fst).toFinset = mixin.local_pending

instance (mixin : TpGroupMixin) : Decidable (LedgerMatches mixin) :=
  inferInstanceAs (Decidable (_ ∧ _))

/-! ## Arrays of integer sets -/

theorem mem_tp_intset_to_array (s : TpIntSet) (x : Nat) :
    x ∈ tp_intset_to_array s ↔ x ∈ s := by
  rcases s with ⟨v, hv⟩
  induction v using Quotient.inductionOn with
  | _ l => exact (List.perm_insertionSort (· ≤ ·) l).mem_iff

theorem nodup_tp_intset_to_array (s : TpIntSet) : (tp_intset_to_array s).Nodup := by
  rcases s with ⟨v, hv⟩
  induction v using Quotient.inductionOn with
  | _ l => exact (List.perm_insertionSort (· ≤ ·) l).nodup_iff.mpr hv

theorem tp_intset_to_array_empty : tp_intset_to_array ∅ = [] := rfl

theorem tp_intset_to_array_singleton (x : Nat) : tp_intset_to_array {x} = [x] := rfl

theorem tp_intset_size_pos_iff (s : TpIntSet) : tp_intset_size s > 0 ↔ s ≠ ∅ := by
  simp [tp_intset_size, Finset.card_pos, Finset.nonempty_iff_ne_empty]

/-! ## Hash-table lemmas -/

section Table

variable {V : Type}

theorem lookup_extended_remove (t : GHashTable V) (k x : Nat) :
    g_hash_table_lookup_extended (g_hash_table_remove t k) x =
      if x = k then none else g_hash_table_lookup_extended t x := by
  induction t with
  | nil => simp [g_hash_table_lookup_extended, g_hash_table_remove]
  | cons p t ih =>
    simp only [g_hash_table_lookup_extended, g_hash_table_remove] at ih ⊢
    by_cases hp : p.1 = k <;> by_cases hx : x = k <;> by_cases hpx : p.1 = x <;>
      simp_all [List.filter_cons, List.find?_cons]

theorem lookup_remove (t : GHashTable V) (k x : Nat) :
    g_hash_table_lookup (g_hash_table_remove t k) x =
      if x = k then none else g_hash_table_lookup t x := by
  unfold g_hash_table_lookup
  rw [lookup_extended_remove]
  split <;> rfl

theorem lookup_insert (t : GHashTable V) (k x : Nat) (v : V) :
    g_hash_table_lookup (g_hash_table_insert t k v) x =
      if x = k then some v else g_hash_table_lookup t x := by
  by_cases hx : x = k
  · simp [g_hash_table_lookup, g_hash_table_lookup_extended, g_hash_table_insert, hx]
  · have hk : ¬ k = x := fun h => hx h.symm
    have h := lookup_remove t k x
    simp only [g_hash_table_lookup, g_hash_table_lookup_extended, g_hash_table_insert,
      List.find?_cons, hx, if_false] at h ⊢
    have hb : (k == x) = false := by simpa using hk
    simp only [hb]
    exact h

theorem lookup_isSome_iff (t : GHashTable V) (x : Nat) :
    (g_hash_table_lookup t x).isSome ↔ x ∈ t.map Prod.fst := by
  induction t with
  | nil => simp [g_hash_table_lookup, g_hash_table_lookup_extended]
  | cons p t ih =>
    simp only [g_hash_table_lookup, g_hash_table_lookup_extended, Option.isSome_map] at ih ⊢
    by_cases hpx : p.1 = x
    · simp [List.find?_cons, hpx]
    · have hxp : ¬ x = p.1 := fun h => hpx h.symm
      have hb : (p.1 == x) = false := by simpa using hpx
      simp only [List.find?_cons, hb, List.map_cons, List.mem_cons, hxp, false_or]
      exact ih

theorem keys_remove (t : GHashTable V) (k : Nat) :
    (g_hash_table_remove t k).map Prod.fst = (t.map Prod.fst).filter (fun y => y != k) := by
  simp [g_hash_table_remove, List.filter_map, Function.comp_def]

theorem nodup_keys_remove (t : GHashTable V) (k : Nat) (h : (t.map Prod.fst).Nodup) :
    ((g_hash_table_remove t k).map Prod.fst).Nodup := by
  rw [keys_remove]; exact h.filter _

theorem nodup_keys_insert (t : GHashTable V) (k : Nat) (v : V) (h : (t.map Prod.fst).Nodup) :
    ((g_hash_table_insert t k v).map Prod.fst).Nodup := by
  simp only [g_hash_table_insert, List.map_cons, List.nodup_cons]
  refine ⟨?_, nodup_keys_remove t k h⟩
  rw [keys_remove]
  simp

theorem remove_eq_self_of_lookup_none (t : GHashTable V) (k : Nat)
    (h : g_hash_table_lookup_extended t k = none) : g_hash_table_remove t k = t := by
  simp only [g_hash_table_lookup_extended, List.find?_eq_none] at h
  simp only [g_hash_table_remove, List.filter_eq_self]
  intro p hp
  simpa using h p hp

theorem lookup_foldl_insert (l : List Nat) (t : GHashTable V) (v : V) (x : Nat) :
    g_hash_table_lookup (l.foldl (fun t i => g_hash_table_insert t i v) t) x =
      if x ∈ l then some v else g_hash_table_lookup t x := by
  induction l generalizing t with
  | nil => simp
  | cons a l ih =>
    rw [List.foldl_cons, ih, lookup_insert]
    by_cases hl : x ∈ l <;> by_cases ha : x = a <;> simp [hl, ha]

theorem lookup_foldl_remove (l : List Nat) (t : GHashTable V) (x : Nat) :
    g_hash_table_lookup (l.foldl g_hash_table_remove t) x =
      if x ∈ l then none else g_hash_table_lookup t x := by
  induction l generalizing t with
  | nil => simp
  | cons a l ih =>
    rw [List.foldl_cons, ih, lookup_remove]
    by_cases hl : x ∈ l <;> by_cases ha : x = a <;> simp [hl, ha]

theorem nodup_keys_foldl_insert (l : List Nat) (t : GHashTable V) (v : V)
    (h : (t.map Prod.fst).Nodup) :
    ((l.foldl (fun t i => g_hash_table_insert t i v) t).map Prod.fst).Nodup := by
  induction l generalizing t with
  | nil => simpa using h
  | cons a l ih => exact ih _ (nodup_keys_insert t a v h)

theorem nodup_keys_foldl_remove (l : List Nat) (t : GHashTable V)
    (h : (t.map Prod.fst).Nodup) :
    ((l.foldl g_hash_table_remove t).map Prod.fst).Nodup := by
  induction l generalizing t with
  | nil => simpa using h
  | cons a l ih => exact ih _ (nodup_keys_remove t a h)

theorem lookup_filter_not_mem (t : GHashTable V) (S : Finset Nat) (k : Nat) :
    g_hash_table_lookup (t.filter (fun p => decide (p.1 ∉ S))) k =
      if k ∈ S then none else g_hash_table_lookup t k := by
  induction t with
  | nil => simp [g_hash_table_lookup, g_hash_table_lookup_extended]
  | cons p t ih =>
    simp only [g_hash_table_lookup, g_hash_table_lookup_extended] at ih ⊢
    by_cases hp : p.1 ∈ S <;> by_cases hk : k ∈ S <;> by_cases hpk : p.1 = k <;>
      simp_all [List.filter_cons, List.find?_cons] <;> assumption

end Table

/-! ## Unfolding the helpers of the transition engine -/

theorem local_pending_added_eq (mixin : TpGroupMixin) (added : TpIntSet) (actor : TpHandle)
    (reason : Nat) (message : String) :
    local_pending_added mixin added actor reason message =
      { mixin with
        priv := { mixin.priv with
          local_pending_info :=
            (tp_intset_to_array added).foldl
              (fun t i => g_hash_table_insert t i (local_pending_info_new actor reason message))
              mixin.priv.local_pending_info } } := by
  unfold local_pending_added tp_intset_foreach
  generalize tp_intset_to_array added = l
  induction l generalizing mixin with
  | nil => rfl
  | cons a l ih => rw [List.foldl_cons, ih]; rfl

theorem local_pending_remove_eq (mixin : TpGroupMixin) (removed : TpIntSet) :
    local_pending_remove mixin removed =
      { mixin with
        priv := { mixin.priv with
          local_pending_info :=
            (tp_intset_to_array removed).foldl g_hash_table_remove
              mixin.priv.local_pending_info } } := by
  unfold local_pending_remove tp_intset_foreach
  generalize tp_intset_to_array removed = l
  induction l generalizing mixin with
  | nil => rfl
  | cons a l ih => rw [List.foldl_cons, ih]; rfl

theorem remove_handle_owners_if_exist_eq (mixin : TpGroupMixin) (array : List Nat) :
    remove_handle_owners_if_exist mixin array =
      { mixin with
        priv := { mixin.priv with
          handle_owners := mixin.priv.handle_owners.filter (fun p => decide (p.1 ∉ array)) } } := by
  unfold remove_handle_owners_if_exist
  induction array generalizing mixin with
  | nil => simp
  | cons a l ih =>
    rw [List.foldl_cons, ih]
    cases hlk : g_hash_table_lookup_extended mixin.priv.handle_owners a with
    | none =>
      have h := remove_eq_self_of_lookup_none _ _ hlk
      simp only
      conv_lhs => rw [← h]
      simp only [g_hash_table_remove, List.filter_filter]
      congr 3
      funext p
      by_cases h1 : p.1 = a <;> by_cases h2 : p.1 ∈ l <;> simp [h1, h2]
    | some e =>
      simp only [g_hash_table_remove, List.filter_filter]
      congr 3
      funext p
      by_cases h1 : p.1 = a <;> by_cases h2 : p.1 ∈ l <;> simp [h1, h2]

/-- The ledger after the set updates of `tp_group_mixin_change_members`: the
entries of the `local_pending` argument are written, then the entries of the
handles leaving `local_pending` are deleted. -/
theorem change_members_update_eq (mixin : TpGroupMixin) (message : String)
    (add remove local_pending remote_pending : Option TpIntSet)
    (actor : TpHandle) (reason : Nat) :
    tp_group_mixin_change_members_update mixin message add remove local_pending
        remote_pending actor reason =
      { mixin :=
          { mixin with
            members := (((mixin.members ∪ add.getD ∅) \ remove.getD ∅) \ local_pending.getD ∅) \
              remote_pending.getD ∅
            local_pending :=
              (((mixin.local_pending ∪ local_pending.getD ∅) \ add.getD ∅) \ remove.getD ∅) \
                remote_pending.getD ∅
            remote_pending :=
              (((mixin.remote_pending ∪ remote_pending.getD ∅) \ add.getD ∅) \ remove.getD ∅) \
                local_pending.getD ∅
            priv := { mixin.priv with
              local_pending_info :=
                (tp_intset_to_array (remote_pending.getD ∅ ∩
                    (((mixin.local_pending ∪ local_pending.getD ∅) \ add.getD ∅) \
                      remove.getD ∅))).foldl g_hash_table_remove
                  ((tp_intset_to_array (remove.getD ∅ ∩
                      ((mixin.local_pending ∪ local_pending.getD ∅) \ add.getD ∅))).foldl
                    g_hash_table_remove
                    ((tp_intset_to_array (add.getD ∅ ∩
                        (mixin.local_pending ∪ local_pending.getD ∅))).foldl
                      g_hash_table_remove
                      ((tp_intset_to_array (local_pending.getD ∅)).foldl
                        (fun t i => g_hash_table_insert t i
                          (local_pending_info_new actor reason message))
                        mixin.priv.local_pending_info))) } }
        new_add := add.getD ∅ \ mixin.members
        new_remove :=
          (remove.getD ∅ ∩ (mixin.members ∪ add.getD ∅)) ∪
            (remove.getD ∅ ∩ ((mixin.local_pending ∪ local_pending.getD ∅) \ add.getD ∅)) ∪
            (remove.getD ∅ ∩ ((mixin.remote_pending ∪ remote_pending.getD ∅) \ add.getD ∅))
        new_local_pending := local_pending.getD ∅ \ mixin.local_pending
        new_remote_pending := remote_pending.getD ∅ \ mixin.remote_pending } := by
  simp only [tp_group_mixin_change_members_update, local_pending_added_eq,
    local_pending_remove_eq, tp_handle_set_update, tp_handle_set_difference_update,
    tp_intset_union, tp_intset_new]

/-- The second part of `tp_group_mixin_change_members`, on the values of the
first part. -/
theorem change_members_eq (obj : TpSvcChannelInterfaceGroup) (message : String)
    (add remove local_pending remote_pending : Option TpIntSet)
    (actor : TpHandle) (reason : Nat) :
    tp_group_mixin_change_members obj message add remove local_pending remote_pending
        actor reason =
      if (tp_group_mixin_change_members_update obj.mixin message add remove local_pending
            remote_pending actor reason).new_add ≠ ∅ ∨
          (tp_group_mixin_change_members_update obj.mixin message add remove local_pending
            remote_pending actor reason).new_remove ≠ ∅ ∨
          (tp_group_mixin_change_members_update obj.mixin message add remove local_pending
            remote_pending actor reason).new_local_pending ≠ ∅ ∨
          (tp_group_mixin_change_members_update obj.mixin message add remove local_pending
            remote_pending actor reason).new_remote_pending ≠ ∅ then
        ({ mixin :=
            { (tp_group_mixin_change_members_update obj.mixin message add remove local_pending
                remote_pending actor reason).mixin with
              priv :=
                { (tp_group_mixin_change_members_update obj.mixin message add remove
                    local_pending remote_pending actor reason).mixin.priv with
                  handle_owners :=
                    (tp_group_mixin_change_members_update obj.mixin message add remove
                      local_pending remote_pending actor reason).mixin.priv.handle_owners.filter
                      (fun p => decide (p.1 ∉ (tp_group_mixin_change_members_update obj.mixin
                        message add remove local_pending remote_pending actor reason).new_remove))
                  actors :=
                    if actor ≠ 0 then
                      insert actor (tp_group_mixin_change_members_update obj.mixin message add
                        remove local_pending remote_pending actor reason).mixin.priv.actors
                    else
                      (tp_group_mixin_change_members_update obj.mixin message add remove
                        local_pending remote_pending actor reason).mixin.priv.actors } }
           emitted := obj.emitted ++
             [GroupSignal.members_changed message
                (tp_intset_to_array (tp_group_mixin_change_members_update obj.mixin message add
                  remove local_pending remote_pending actor reason).new_add)
                (tp_intset_to_array (tp_group_mixin_change_members_update obj.mixin message add
                  remove local_pending remote_pending actor reason).new_remove)
                (tp_intset_to_array (tp_group_mixin_change_members_update obj.mixin message add
                  remove local_pending remote_pending actor reason).new_local_pending)
                (tp_intset_to_array (tp_group_mixin_change_members_update obj.mixin message add
                  remove local_pending remote_pending actor reason).new_remote_pending)
                actor reason] }, true)
      else
        ({ obj with
           mixin := (tp_group_mixin_change_members_update obj.mixin message add remove
             local_pending remote_pending actor reason).mixin }, false) := by
  unfold tp_group_mixin_change_members
  generalize tp_group_mixin_change_members_update obj.mixin message add remove local_pending
    remote_pending actor reason = d
  simp only [tp_intset_size_pos_iff, remove_handle_owners_if_exist_eq, mem_tp_intset_to_array,
    tp_handle_set_add]
  by_cases hc : d.new_add ≠ ∅ ∨ d.new_remove ≠ ∅ ∨ d.new_local_pending ≠ ∅ ∨
      d.new_remote_pending ≠ ∅
  · rw [if_pos hc, if_pos hc]
    by_cases ha : actor ≠ 0
    · simp only [ha, if_true, ne_eq, not_false_eq_true]
    · simp only [ha, if_false]
  · rw [if_neg hc, if_neg hc]

section Fields

variable (obj : TpSvcChannelInterfaceGroup) (message : String)
  (add remove local_pending remote_pending : Option TpIntSet) (actor : TpHandle) (reason : Nat)

theorem change_members_mixin_sets :
    (tp_group_mixin_change_members obj message add remove local_pending remote_pending
        actor reason).1.mixin.members =
      (((obj.mixin.members ∪ add.getD ∅) \ remove.getD ∅) \ local_pending.getD ∅) \
        remote_pending.getD ∅ ∧
    (tp_group_mixin_change_members obj message add remove local_pending remote_pending
        actor reason).1.mixin.local_pending =
      (((obj.mixin.local_pending ∪ local_pending.getD ∅) \ add.getD ∅) \ remove.getD ∅) \
        remote_pending.getD ∅ ∧
    (tp_group_mixin_change_members obj message add remove local_pending remote_pending
        actor reason).1.mixin.remote_pending =
      (((obj.mixin.remote_pending ∪ remote_pending.getD ∅) \ add.getD ∅) \ remove.getD ∅) \
        local_pending.getD ∅ := by
  rw [change_members_eq]
  split <;> simp [change_members_update_eq]

theorem change_members_frame :
    (tp_group_mixin_change_members obj message add remove local_pending remote_pending
        actor reason).1.mixin.self_handle = obj.mixin.self_handle ∧
    (tp_group_mixin_change_members obj message add remove local_pending remote_pending
        actor reason).1.mixin.group_flags = obj.mixin.group_flags := by
  rw [change_members_eq]
  split <;> simp [change_members_update_eq]

theorem change_members_ret_iff :
    (tp_group_mixin_change_members obj message add remove local_pending remote_pending
        actor reason).2 = true ↔
      ((tp_group_mixin_change_members_update obj.mixin message add remove local_pending
          remote_pending actor reason).new_add ≠ ∅ ∨
        (tp_group_mixin_change_members_update obj.mixin message add remove local_pending
          remote_pending actor reason).new_remove ≠ ∅ ∨
        (tp_group_mixin_change_members_update obj.mixin message add remove local_pending
          remote_pending actor reason).new_local_pending ≠ ∅ ∨
        (tp_group_mixin_change_members_update obj.mixin message add remove local_pending
          remote_pending actor reason).new_remote_pending ≠ ∅) := by
  rw [change_members_eq]
  split
  · rename_i h; simpa using h
  · rename_i h; simpa using h

theorem change_members_lookup_info (x : Nat) :
    g_hash_table_lookup (tp_group_mixin_change_members obj message add remove local_pending
        remote_pending actor reason).1.mixin.priv.local_pending_info x =
      if x ∈ add.getD ∅ ∪ remove.getD ∅ ∪ remote_pending.getD ∅ ∧
          x ∈ obj.mixin.local_pending ∪ local_pending.getD ∅ then none
      else if x ∈ local_pending.getD ∅ then
        some (local_pending_info_new actor reason message)
      else g_hash_table_lookup obj.mixin.priv.local_pending_info x := by
  have h : (tp_group_mixin_change_members obj message add remove local_pending
        remote_pending actor reason).1.mixin.priv.local_pending_info =
      (tp_group_mixin_change_members_update obj.mixin message add remove local_pending
        remote_pending actor reason).mixin.priv.local_pending_info := by
    rw [change_members_eq]
    split <;> rfl
  rw [h, change_members_update_eq]
  simp only [lookup_foldl_remove, lookup_foldl_insert, mem_tp_intset_to_array,
    Finset.mem_inter, Finset.mem_union, Finset.mem_sdiff]
  by_cases h1 : x ∈ add.getD ∅ <;> by_cases h2 : x ∈ remove.getD ∅ <;>
    by_cases h3 : x ∈ remote_pending.getD ∅ <;> by_cases h4 : x ∈ local_pending.getD ∅ <;>
    by_cases h5 : x ∈ obj.mixin.local_pending <;> simp [h1, h2, h3, h4, h5]

theorem change_members_nodup_info
    (h : (obj.mixin.priv.local_pending_info.map Prod.fst).Nodup) :
    ((tp_group_mixin_change_members obj message add remove local_pending remote_pending
        actor reason).1.mixin.priv.local_pending_info.map Prod.fst).Nodup := by
  have h1 : (tp_group_mixin_change_members obj message add remove local_pending
        remote_pending actor reason).1.mixin.priv.local_pending_info =
      (tp_group_mixin_change_members_update obj.mixin message add remove local_pending
        remote_pending actor reason).mixin.priv.local_pending_info := by
    rw [change_members_eq]
    split <;> rfl
  rw [h1, change_members_update_eq]
  exact nodup_keys_foldl_remove _ _ (nodup_keys_foldl_remove _ _
    (nodup_keys_foldl_remove _ _ (nodup_keys_foldl_insert _ _ _ h)))

theorem change_members_owners :
    (tp_group_mixin_change_members obj message add remove local_pending remote_pending
        actor reason).1.mixin.priv.handle_owners =
      obj.mixin.priv.handle_owners.filter
        (fun p => decide (p.1 ∉ (tp_group_mixin_change_members_update obj.mixin message add
          remove local_pending remote_pending actor reason).new_remove)) := by
  rw [change_members_eq]
  split
  · simp [change_members_update_eq]
  · rename_i h
    simp only [not_or, not_not] at h
    rw [h.2.1]
    simp [change_members_update_eq]

theorem change_members_actors :
    (tp_group_mixin_change_members obj message add remove local_pending remote_pending
        actor reason).1.mixin.priv.actors =
      if (tp_group_mixin_change_members obj message add remove local_pending remote_pending
          actor reason).2 = true ∧ actor ≠ 0 then insert actor obj.mixin.priv.actors
      else obj.mixin.priv.actors := by
  rw [change_members_eq]
  split
  · by_cases ha : actor = 0 <;> simp [change_members_update_eq, ha]
  · simp [change_members_update_eq]

theorem change_members_emitted :
    (tp_group_mixin_change_members obj message add remove local_pending remote_pending
        actor reason).1.emitted =
      if (tp_group_mixin_change_members obj message add remove local_pending remote_pending
          actor reason).2 = true then
        obj.emitted ++
          [GroupSignal.members_changed message
            (tp_intset_to_array (tp_group_mixin_change_members_update obj.mixin message add
              remove local_pending remote_pending actor reason).new_add)
            (tp_intset_to_array (tp_group_mixin_change_members_update obj.mixin message add
              remove local_pending remote_pending actor reason).new_remove)
            (tp_intset_to_array (tp_group_mixin_change_members_update obj.mixin message add
              remove local_pending remote_pending actor reason).new_local_pending)
            (tp_intset_to_array (tp_group_mixin_change_members_update obj.mixin message add
              remove local_pending remote_pending actor reason).new_remote_pending)
            actor reason]
      else obj.emitted := by
  rw [change_members_eq]
  split <;> simp

end Fields

/-! ## Invariants of the reachable states -/

theorem membership_disjoint_step (obj : TpSvcChannelInterfaceGroup) (message : String)
    (add remove local_pending remote_pending : Option TpIntSet) (actor : TpHandle)
    (reason : Nat) (h : MembershipDisjoint obj.mixin) :
    MembershipDisjoint (tp_group_mixin_change_members obj message add remove local_pending
      remote_pending actor reason).1.mixin := by
  obtain ⟨hm, hl, hr⟩ := change_members_mixin_sets obj message add remove local_pending
    remote_pending actor reason
  obtain ⟨h1, h2, h3⟩ := h
  unfold MembershipDisjoint
  rw [hm, hl, hr]
  simp only [Finset.disjoint_left, Finset.mem_sdiff, Finset.mem_union] at h1 h2 h3 ⊢
  refine ⟨?_, ?_, ?_⟩
  · intro x hx hx2
    have := @h1 x
    tauto
  · intro x hx hx2
    have := @h2 x
    tauto
  · intro x hx hx2
    have := @h3 x
    tauto

theorem ledger_matches_iff (mixin : TpGroupMixin) :
    LedgerMatches mixin ↔
      (mixin.priv.local_pending_info.map Prod.fst).Nodup ∧
      ∀ x, (g_hash_table_lookup mixin.priv.local_pending_info x).isSome ↔
        x ∈ mixin.local_pending := by
  unfold LedgerMatches
  constructor
  · rintro ⟨hn, hk⟩
    refine ⟨hn, fun x => ?_⟩
    rw [lookup_isSome_iff, ← hk, List.mem_toFinset]
  · rintro ⟨hn, hk⟩
    refine ⟨hn, ?_⟩
    ext x
    rw [List.mem_toFinset, ← lookup_isSome_iff, hk]

theorem ledger_matches_step (obj : TpSvcChannelInterfaceGroup) (message : String)
    (add remove local_pending remote_pending : Option TpIntSet) (actor : TpHandle)
    (reason : Nat) (h : LedgerMatches obj.mixin) :
    LedgerMatches (tp_group_mixin_change_members obj message add remove local_pending
      remote_pending actor reason).1.mixin := by
  rw [ledger_matches_iff] at h ⊢
  obtain ⟨hn, hk⟩ := h
  refine ⟨change_members_nodup_info obj message add remove local_pending remote_pending
    actor reason hn, fun x => ?_⟩
  rw [change_members_lookup_info,
    (change_members_mixin_sets obj message add remove local_pending remote_pending
      actor reason).2.1]
  have hx := hk x
  simp only [Finset.mem_sdiff, Finset.mem_union]
  generalize g_hash_table_lookup obj.mixin.priv.local_pending_info x = o at hx ⊢
  cases o <;> simp only [Option.isSome_none, Option.isSome_some, Bool.false_eq_true,
      false_iff, true_iff] at hx <;>
    by_cases h1 : x ∈ add.getD ∅ <;> by_cases h2 : x ∈ remove.getD ∅ <;>
    by_cases h3 : x ∈ remote_pending.getD ∅ <;> by_cases h4 : x ∈ local_pending.getD ∅ <;>
    simp [h1, h2, h3, h4, hx]

theorem membership_disjoint_of_reachable (obj : TpSvcChannelInterfaceGroup) (h : Reachable obj) :
    MembershipDisjoint obj.mixin := by
  induction h with
  | init self_handle => simp [MembershipDisjoint, tp_group_mixin_init]
  | change_members _ message add remove local_pending remote_pending actor reason ih =>
    exact membership_disjoint_step _ message add remove local_pending remote_pending actor
      reason ih
  | change_flags _ add remove ih =>
    unfold tp_group_mixin_change_flags
    split <;> exact ih
  | add_handle_owner _ local_handle owner_handle ih => exact ih

theorem ledger_matches_of_reachable (obj : TpSvcChannelInterfaceGroup) (h : Reachable obj) :
    LedgerMatches obj.mixin := by
  induction h with
  | init self_handle => simp [LedgerMatches, tp_group_mixin_init, g_hash_table_new]
  | change_members _ message add remove local_pending remote_pending actor reason ih =>
    exact ledger_matches_step _ message add remove local_pending remote_pending actor
      reason ih
  | change_flags _ add remove ih =>
    unfold tp_group_mixin_change_flags
    split <;> exact ih
  | add_handle_owner _ local_handle owner_handle ih => exact ih

theorem with_info_foldl (mixin : TpGroupMixin) (l : List Nat)
    (acc : List (Nat × Nat × Nat × String))
    (h : ∀ x ∈ l, (g_hash_table_lookup mixin.priv.local_pending_info x).isSome) :
    ∃ arr, l.foldl (local_pending_members_with_info_foreach mixin) (some acc) =
        some (acc ++ arr) ∧
      arr.map (fun e => e.1) = l ∧
      ∀ e ∈ arr, g_hash_table_lookup mixin.priv.local_pending_info e.1 =
        some { actor := e.2.1, reason := e.2.2.1, message := e.2.2.2 } := by
  induction l generalizing acc with
  | nil => exact ⟨[], by simp, rfl, by simp⟩
  | cons a l ih =>
    have ha := h a (List.mem_cons_self a l)
    obtain ⟨info, hinfo⟩ := Option.isSome_iff_exists.mp ha
    obtain ⟨arr, h1, h2, h3⟩ := ih (acc ++ [(a, info.actor, info.reason, info.message)])
      (fun x hx => h x (List.mem_cons_of_mem a hx))
    refine ⟨(a, info.actor, info.reason, info.message) :: arr, ?_, ?_, ?_⟩
    · rw [List.foldl_cons]
      simp only [local_pending_members_with_info_foreach, hinfo]
      rw [h1]
      simp
    · simp [h2]
    · intro e he
      rcases List.mem_cons.mp he with rfl | he
      · simpa using hinfo
      · exact h3 e he

/-! ## Capability-flag arithmetic -/

theorem and_or_added_eq (f add remove : Nat)
    (h : remove &&& add &&& guint_not f = 0) :
    remove &&& (f ||| (add &&& guint_not f)) = remove &&& f := by
  apply Nat.eq_of_testBit_eq
  intro i
  have hi := congrArg (fun n => n.testBit i) h
  simp only [Nat.testBit_and, Nat.zero_testBit] at hi
  simp only [Nat.testBit_and, Nat.testBit_or]
  cases hr : remove.testBit i <;> cases hf : f.testBit i <;> cases ha : add.testBit i <;>
    cases hn : (guint_not f).testBit i <;> simp_all

/-! ## Lemmas on the flag mutator -/

theorem and_guint_max (f : Nat) (h : f < 4294967296) : f &&& 4294967295 = f := by
  have h2 := Nat.and_pow_two_sub_one_eq_mod f 32
  simpa [Nat.mod_eq_of_lt h] using h2

theorem mask_or_eq_zero_iff (add remove : Nat) :
    add ||| remove = 0 ↔ add = 0 ∧ remove = 0 := by
  constructor
  · intro h
    have h1 : ∀ i, add.testBit i = false ∧ remove.testBit i = false := by
      intro i
      have hi := congrArg (fun n => n.testBit i) h
      simpa [Nat.testBit_or] using hi
    exact ⟨Nat.eq_of_testBit_eq (fun i => by simp [(h1 i).1]),
      Nat.eq_of_testBit_eq (fun i => by simp [(h1 i).2])⟩
  · rintro ⟨h1, h2⟩
    simp [h1, h2]

theorem change_flags_emitted (obj : TpSvcChannelInterfaceGroup) (add remove : Nat) :
    (tp_group_mixin_change_flags obj add remove).emitted =
      if add ≠ 0 ∨ remove ≠ 0 then
        obj.emitted ++
          [GroupSignal.group_flags_changed (add &&& guint_not obj.mixin.group_flags)
            (remove &&& (obj.mixin.group_flags ||| (add &&& guint_not obj.mixin.group_flags)))]
      else obj.emitted := by
  unfold tp_group_mixin_change_flags
  split <;> rfl

theorem change_flags_group_flags (obj : TpSvcChannelInterfaceGroup) (add remove : Nat) :
    (tp_group_mixin_change_flags obj add remove).mixin.group_flags =
      (obj.mixin.group_flags ||| (add &&& guint_not obj.mixin.group_flags)) &&&
        guint_not
          (remove &&& (obj.mixin.group_flags ||| (add &&& guint_not obj.mixin.group_flags))) := by
  unfold tp_group_mixin_change_flags
  split <;> rfl

theorem change_flags_zero_masks (obj : TpSvcChannelInterfaceGroup)
    (hf : obj.mixin.group_flags < 4294967296) :
    tp_group_mixin_change_flags obj 0 0 = obj := by
  unfold tp_group_mixin_change_flags
  simp [guint_not, and_guint_max _ hf]

/-! ## Validation of batch requests -/

theorem handles_are_valid_eq_none_iff (repo : TpHandleRepoIface) (l : List TpHandle) :
    tp_handles_are_valid repo l false = none ↔ ∀ h ∈ l, repo.is_valid h = true := by
  induction l with
  | nil => simp [tp_handles_are_valid]
  | cons a l ih =>
    unfold tp_handles_are_valid
    by_cases ha : repo.is_valid a = true
    · simp [ha, ih]
    · simp [ha]

theorem add_check_flags_eq_none_iff (mixin : TpGroupMixin) (l : List TpHandle) :
    add_members_check_flags mixin l = none ↔
      ¬ (mixin.group_flags &&& TP_CHANNEL_GROUP_FLAG_CAN_ADD = 0 ∧
        ∃ h ∈ l, h ∉ mixin.local_pending) := by
  induction l with
  | nil => simp [add_members_check_flags]
  | cons a l ih =>
    unfold add_members_check_flags
    by_cases hf : mixin.group_flags &&& TP_CHANNEL_GROUP_FLAG_CAN_ADD = 0 <;>
      by_cases ha : a ∈ mixin.local_pending <;>
      simp_all [tp_handle_set_is_member]

theorem add_check_flags_first (mixin : TpGroupMixin) (l : List TpHandle) (h0 : TpHandle)
    (hf : mixin.group_flags &&& TP_CHANNEL_GROUP_FLAG_CAN_ADD = 0)
    (h : l.find? (fun h => decide (h ∉ mixin.local_pending)) = some h0) :
    add_members_check_flags mixin l =
      some { code := TpError.TP_ERROR_PERMISSION_DENIED, handle := some h0 } := by
  induction l with
  | nil => simp at h
  | cons a l ih =>
    unfold add_members_check_flags
    by_cases ha : a ∈ mixin.local_pending
    · simp only [List.find?_cons, ha, not_true_eq_false, decide_False] at h
      simp [hf, ha, tp_handle_set_is_member, ih h]
    · simp only [List.find?_cons, ha, not_false_eq_true, decide_True, Option.some.injEq] at h
      subst h
      simp [hf, ha, tp_handle_set_is_member]

theorem remove_check_flags_cons (mixin : TpGroupMixin) (a : TpHandle) (l : List TpHandle) :
    remove_members_check_flags mixin (a :: l) =
      if spec_remove_refused mixin a = true then
        some { code := if a ∈ mixin.members ∨ a ∈ mixin.remote_pending then
                 TpError.TP_ERROR_PERMISSION_DENIED else TpError.TP_ERROR_NOT_AVAILABLE,
               handle := some a }
      else remove_members_check_flags mixin l := by
  rw [remove_members_check_flags]
  by_cases hm : a ∈ mixin.members <;> by_cases hr : a ∈ mixin.remote_pending <;>
    by_cases hl : a ∈ mixin.local_pending <;>
    by_cases h1 : mixin.group_flags &&& TP_CHANNEL_GROUP_FLAG_CAN_REMOVE = 0 <;>
    by_cases h2 : mixin.group_flags &&& TP_CHANNEL_GROUP_FLAG_CAN_RESCIND = 0 <;>
    simp [spec_remove_refused, tp_handle_set_is_member, hm, hr, hl, h1, h2]

theorem remove_check_flags_eq_none_iff (mixin : TpGroupMixin) (l : List TpHandle) :
    remove_members_check_flags mixin l = none ↔
      ¬ ∃ h ∈ l, spec_remove_refused mixin h = true := by
  induction l with
  | nil => simp [remove_members_check_flags]
  | cons a l ih =>
    rw [remove_check_flags_cons]
    by_cases ha : spec_remove_refused mixin a = true
    · simp [ha]
    · simp [ha, ih]

theorem remove_check_flags_first (mixin : TpGroupMixin) (l : List TpHandle) (h0 : TpHandle)
    (h : l.find? (spec_remove_refused mixin) = some h0) :
    remove_members_check_flags mixin l =
      some { code := if h0 ∈ mixin.members ∨ h0 ∈ mixin.remote_pending then
               TpError.TP_ERROR_PERMISSION_DENIED else TpError.TP_ERROR_NOT_AVAILABLE,
             handle := some h0 } := by
  induction l with
  | nil => simp at h
  | cons a l ih =>
    rw [remove_check_flags_cons]
    by_cases ha : spec_remove_refused mixin a = true
    · simp only [List.find?_cons, ha, Option.some.injEq] at h
      subst h
      simp [ha]
    · simp only [List.find?_cons, ha] at h
      simp [ha, ih h]

/-! ## The callback loops -/

theorem add_members_loop_append (cb : TpGroupMixinMemberFunc)
    (obj : TpSvcChannelInterfaceGroup) (pre rest : List TpHandle) (message : String) :
    add_members_loop cb obj (pre ++ rest) message =
      if (add_members_loop cb obj pre message).error = none then
        { obj := (add_members_loop cb (add_members_loop cb obj pre message).obj rest
            message).obj
          error := (add_members_loop cb (add_members_loop cb obj pre message).obj rest
            message).error
          calls := (add_members_loop cb obj pre message).calls ++
            (add_members_loop cb (add_members_loop cb obj pre message).obj rest
              message).calls }
      else add_members_loop cb obj pre message := by
  induction pre generalizing obj with
  | nil => simp [add_members_loop]
  | cons a pre ih =>
    rw [List.cons_append]
    rw [add_members_loop, add_members_loop]
    by_cases hm : tp_handle_set_is_member obj.mixin.members a = true
    · simp only [hm, if_true]
      exact ih obj
    · simp only [hm, if_false]
      cases hcb : cb obj a message with
      | error e => simp
      | ok obj2 =>
        simp only
        rw [ih obj2]
        by_cases he : (add_members_loop cb obj2 pre message).error = none
        · simp [he]
        · simp [he]

theorem remove_members_loop_append (cb : TpGroupMixinMemberFunc)
    (obj : TpSvcChannelInterfaceGroup) (pre rest : List TpHandle) (message : String) :
    remove_members_loop cb obj (pre ++ rest) message =
      if (remove_members_loop cb obj pre message).error = none then
        { obj := (remove_members_loop cb (remove_members_loop cb obj pre message).obj rest
            message).obj
          error := (remove_members_loop cb (remove_members_loop cb obj pre message).obj rest
            message).error
          calls := (remove_members_loop cb obj pre message).calls ++
            (remove_members_loop cb (remove_members_loop cb obj pre message).obj rest
              message).calls }
      else remove_members_loop cb obj pre message := by
  induction pre generalizing obj with
  | nil => simp [remove_members_loop]
  | cons a pre ih =>
    rw [List.cons_append]
    rw [remove_members_loop, remove_members_loop]
    cases hcb : cb obj a message with
    | error e => simp
    | ok obj2 =>
      simp only
      rw [ih obj2]
      by_cases he : (remove_members_loop cb obj2 pre message).error = none
      · simp [he]
      · simp [he]

theorem add_members_loop_all_members (cb : TpGroupMixinMemberFunc)
    (obj : TpSvcChannelInterfaceGroup) (contacts : List TpHandle) (message : String)
    (h : ∀ x ∈ contacts, x ∈ obj.mixin.members) :
    add_members_loop cb obj contacts message = { obj := obj, error := none, calls := [] } := by
  induction contacts with
  | nil => rfl
  | cons a l ih =>
    rw [add_members_loop]
    have ha : tp_handle_set_is_member obj.mixin.members a = true := by
      simpa [tp_handle_set_is_member] using h a (List.mem_cons_self a l)
    simp only [ha, if_true]
    exact ih (fun x hx => h x (List.mem_cons_of_mem a hx))

theorem add_members_loop_calls_sublist (cb : TpGroupMixinMemberFunc)
    (obj : TpSvcChannelInterfaceGroup) (contacts : List TpHandle) (message : String) :
    List.Sublist (add_members_loop cb obj contacts message).calls contacts := by
  induction contacts generalizing obj with
  | nil => simp [add_members_loop]
  | cons a l ih =>
    rw [add_members_loop]
    by_cases hm : tp_handle_set_is_member obj.mixin.members a = true
    · simp only [hm, if_true]
      exact List.Sublist.cons a (ih obj)
    · simp only [hm, if_false]
      cases hcb : cb obj a message with
      | error e => simp
      | ok obj2 =>
        simp only
        exact List.Sublist.cons₂ a (ih obj2)

/-! ## Owner lookup lemmas -/

theorem handles_are_valid_error_code (repo : TpHandleRepoIface) (l : List TpHandle)
    (allow_zero : Bool) (e : GError) (h : tp_handles_are_valid repo l allow_zero = some e) :
    e.code = TpError.TP_ERROR_INVALID_ARGUMENT := by
  induction l with
  | nil => simp [tp_handles_are_valid] at h
  | cons a l ih =>
    unfold tp_handles_are_valid at h
    split at h
    · exact ih h
    · split at h
      · simp only [Option.some.injEq] at h
        rw [← h]
      · exact ih h

theorem get_handle_owners_loop_eq (mixin : TpGroupMixin) (handles ret : List TpHandle) :
    get_handle_owners_loop mixin handles ret =
      match handles.find? (fun h => decide (h ∉ mixin.members)) with
      | some h0 =>
        Except.error { code := TpError.TP_ERROR_INVALID_ARGUMENT, handle := some h0 }
      | none =>
        Except.ok (ret ++ handles.map
          (fun h => (g_hash_table_lookup mixin.priv.handle_owners h).getD 0)) := by
  induction handles generalizing ret with
  | nil => simp [get_handle_owners_loop]
  | cons a l ih =>
    rw [get_handle_owners_loop]
    by_cases ha : a ∈ mixin.members
    · simp only [tp_handle_set_is_member, ha, decide_True, Bool.true_eq_false, if_false,
        List.find?_cons, not_true_eq_false, decide_False, List.map_cons]
      rw [ih]
      cases List.find? (fun h => decide (h ∉ mixin.members)) l <;> simp
    · simp [tp_handle_set_is_member, ha, List.find?_cons]

/-! ## Reference counts of the owner map -/

theorem add_handle_owner_fresh_key_keeps_refs (obj : TpSvcChannelInterfaceGroup)
    (refs : HandleRefs) (local_handle owner_handle : TpHandle)
    (hinv : ∀ x, refs x = slots_holding obj.mixin x)
    (hfresh : g_hash_table_lookup_extended obj.mixin.priv.handle_owners local_handle = none)
    (x : TpHandle) :
    tp_group_mixin_add_handle_owner_refs refs local_handle owner_handle x =
      slots_holding (tp_group_mixin_add_handle_owner obj local_handle owner_handle).mixin x := by
  have hrem := remove_eq_self_of_lookup_none _ _ hfresh
  have e1 : (tp_group_mixin_add_handle_owner obj local_handle owner_handle).mixin =
      { obj.mixin with
        priv := { obj.mixin.priv with
          handle_owners := (local_handle, owner_handle) :: obj.mixin.priv.handle_owners } } := by
    simp only [tp_group_mixin_add_handle_owner, g_hash_table_insert, hrem]
  rw [e1]
  simp only [tp_group_mixin_add_handle_owner_refs, tp_handle_ref, hinv, slots_holding,
    List.filter_cons]
  by_cases h1 : x = local_handle <;> by_cases h2 : x = owner_handle
  · subst h1; subst h2; simp; omega
  · subst h1
    have h3 : ¬ owner_handle = x := fun h => h2 h.symm
    simp [h2, h3]; omega
  · subst h2
    have h3 : ¬ local_handle = x := fun h => h1 h.symm
    simp [h1, h3]; omega
  · have h3 : ¬ local_handle = x := fun h => h1 h.symm
    have h4 : ¬ owner_handle = x := fun h => h2 h.symm
    simp [h1, h2, h3, h4]

/-! ## Set algebra of the net deltas -/

theorem removed_set_eq (M L R A Rm LP RP : Finset Nat) :
    Rm ∩ (M ∪ A) ∪ Rm ∩ ((L ∪ LP) \ A) ∪ Rm ∩ ((R ∪ RP) \ A) =
      Rm ∩ (M ∪ L ∪ R ∪ A ∪ LP ∪ RP) := by
  ext x
  simp only [Finset.mem_union, Finset.mem_inter, Finset.mem_sdiff]
  tauto

theorem deltas_empty_iff_unchanged (M L R A Rm LP RP : Finset Nat)
    (hML : Disjoint M L) (hMR : Disjoint M R) (hLR : Disjoint L R)
    (har : Disjoint A Rm) (hal : Disjoint A LP) (hap : Disjoint A RP)
    (hrl : Disjoint Rm LP) (hrp : Disjoint Rm RP) (hlp : Disjoint LP RP) :
    (A \ M = ∅ ∧ Rm ∩ (M ∪ L ∪ R ∪ A ∪ LP ∪ RP) = ∅ ∧ LP \ L = ∅ ∧ RP \ R = ∅) ↔
      ((((M ∪ A) \ Rm) \ LP) \ RP = M ∧ (((L ∪ LP) \ A) \ Rm) \ RP = L ∧
        (((R ∪ RP) \ A) \ Rm) \ LP = R) := by
  simp only [Finset.disjoint_left] at hML hMR hLR har hal hap hrl hrp hlp
  simp only [Finset.ext_iff, Finset.mem_union, Finset.mem_inter, Finset.mem_sdiff,
    Finset.not_mem_empty, iff_false]
  constructor
  · rintro ⟨e1, e2, e3, e4⟩
    refine ⟨fun x => ?_, fun x => ?_, fun x => ?_⟩ <;>
    · have h1 := @hML x
      have h2 := @hMR x
      have h3 := @hLR x
      have g1 := e1 x
      have g2 := e2 x
      have g3 := e3 x
      have g4 := e4 x
      clear hML hMR hLR har hal hap hrl hrp hlp e1 e2 e3 e4
      by_cases xM : x ∈ M <;> by_cases xL : x ∈ L <;> by_cases xR : x ∈ R <;>
        by_cases xA : x ∈ A <;> by_cases xRm : x ∈ Rm <;> by_cases xLP : x ∈ LP <;>
        by_cases xRP : x ∈ RP <;> simp_all
  · rintro ⟨e1, e2, e3⟩
    refine ⟨fun x => ?_, fun x => ?_, fun x => ?_, fun x => ?_⟩ <;>
    · have h4 := @har x
      have h5 := @hal x
      have h6 := @hap x
      have h7 := @hrl x
      have h8 := @hrp x
      have h9 := @hlp x
      have g1 := e1 x
      have g2 := e2 x
      have g3 := e3 x
      clear hML hMR hLR har hal hap hrl hrp hlp e1 e2 e3
      by_cases xM : x ∈ M <;> by_cases xL : x ∈ L <;> by_cases xR : x ∈ R <;>
        by_cases xA : x ∈ A <;> by_cases xRm : x ∈ Rm <;> by_cases xLP : x ∈ LP <;>
        by_cases xRP : x ∈ RP <;> simp_all

/-! ## Bits of the flag mutator -/

theorem testBit_guint_not (x i : Nat) :
    (guint_not x).testBit i = (decide (i < 32) && !x.testBit i) := by
  have h32 : (4294967295 : Nat) = 2 ^ 32 - 1 := by norm_num
  have hp : (4294967296 : Nat) = 2 ^ 32 := by norm_num
  unfold guint_not
  rw [h32, hp, Nat.testBit_xor, Nat.testBit_mod_two_pow, Nat.testBit_two_pow_sub_one]
  by_cases hi : i < 32 <;> simp [hi]

theorem change_flags_final_flags (f add remove : Nat) :
    (f ||| (add &&& guint_not f)) &&&
        guint_not (remove &&& (f ||| (add &&& guint_not f))) =
      (f ||| add) &&& guint_not remove := by
  apply Nat.eq_of_testBit_eq
  intro i
  simp only [Nat.testBit_and, Nat.testBit_or, testBit_guint_not]
  cases f.testBit i <;> cases add.testBit i <;> cases remove.testBit i <;>
    cases decide (i < 32) <;> rfl

theorem final_flags_idempotent (f add remove : Nat) :
    (((f ||| add) &&& guint_not remove) ||| add) &&& guint_not remove =
      (f ||| add) &&& guint_not remove := by
  apply Nat.eq_of_testBit_eq
  intro i
  simp only [Nat.testBit_and, Nat.testBit_or, testBit_guint_not]
  cases f.testBit i <;> cases add.testBit i <;> cases remove.testBit i <;>
    cases decide (i < 32) <;> rfl

/-! ## The return value and the signal, in terms of the arguments -/

theorem change_members_ret_iff_sets (obj : TpSvcChannelInterfaceGroup) (message : String)
    (add remove local_pending remote_pending : Option TpIntSet) (actor : TpHandle)
    (reason : Nat) :
    (tp_group_mixin_change_members obj message add remove local_pending remote_pending
        actor reason).2 = true ↔
      (add.getD ∅ \ obj.mixin.members ≠ ∅ ∨
        remove.getD ∅ ∩ (obj.mixin.members ∪ obj.mixin.local_pending ∪
          obj.mixin.remote_pending ∪ add.getD ∅ ∪ local_pending.getD ∅ ∪
          remote_pending.getD ∅) ≠ ∅ ∨
        local_pending.getD ∅ \ obj.mixin.local_pending ≠ ∅ ∨
        remote_pending.getD ∅ \ obj.mixin.remote_pending ≠ ∅) := by
  rw [change_members_ret_iff, change_members_update_eq]
  simp only [removed_set_eq]

theorem change_members_emitted_sets (obj : TpSvcChannelInterfaceGroup) (message : String)
    (add remove local_pending remote_pending : Option TpIntSet) (actor : TpHandle)
    (reason : Nat) :
    (tp_group_mixin_change_members obj message add remove local_pending remote_pending
        actor reason).1.emitted =
      if (tp_group_mixin_change_members obj message add remove local_pending remote_pending
          actor reason).2 = true then
        obj.emitted ++
          [GroupSignal.members_changed message
            (tp_intset_to_array (add.getD ∅ \ obj.mixin.members))
            (tp_intset_to_array (remove.getD ∅ ∩ (obj.mixin.members ∪
              obj.mixin.local_pending ∪ obj.mixin.remote_pending ∪ add.getD ∅ ∪
              local_pending.getD ∅ ∪ remote_pending.getD ∅)))
            (tp_intset_to_array (local_pending.getD ∅ \ obj.mixin.local_pending))
            (tp_intset_to_array (remote_pending.getD ∅ \ obj.mixin.remote_pending))
            actor reason]
      else obj.emitted := by
  rw [change_members_emitted, change_members_update_eq]
  simp only [removed_set_eq]

/-! ## The claims -/

/-- C1: disjointness invariant.  From a state whose `members`, `local_pending`
and `remote_pending` are pairwise disjoint, `tp_group_mixin_change_members`
with any four candidate sets (overlapping or not, `NULL` counting as empty)
yields a state whose three sets are again pairwise disjoint; hence the three
sets are pairwise disjoint in every state reachable from `tp_group_mixin_init`. -/
theorem change_members_keeps_sets_disjoint :
    (∀ (obj : TpSvcChannelInterfaceGroup) (message : String)
        (add remove local_pending remote_pending : Option TpIntSet) (actor : TpHandle)
        (reason : Nat),
      MembershipDisjoint obj.mixin →
      MembershipDisjoint (tp_group_mixin_change_members obj message add remove local_pending
        remote_pending actor reason).1.mixin) ∧
    (∀ obj : TpSvcChannelInterfaceGroup, Reachable obj → MembershipDisjoint obj.mixin) :=
  ⟨membership_disjoint_step, membership_disjoint_of_reachable⟩

theorem change_members_keeps_sets_disjoint_witness :
    MembershipDisjoint (tp_group_mixin_init 0).mixin ∧
    MembershipDisjoint (tp_group_mixin_change_members (tp_group_mixin_init 0) ""
      (some {1, 2}) (some {2}) (some {1, 3}) (some {3, 4}) 0 0).1.mixin :=
  ⟨by decide, change_members_keeps_sets_disjoint.1 (tp_group_mixin_init 0) ""
    (some {1, 2}) (some {2}) (some {1, 3}) (some {3, 4}) 0 0 (by decide)⟩

/-- C2: pending-ledger invariant.  In every state reachable from
`tp_group_mixin_init` the `local_pending_info` table has exactly one entry per
handle of `local_pending` and no other entry; so every lookup made by
`tp_group_mixin_get_local_pending_members_with_info` finds an entry (the
`g_assert` holds, the accessor returns an array) and the array holds exactly one
tuple per local-pending handle, carrying the actor, reason and message of its
ledger entry. -/
theorem reachable_ledger_matches_local_pending (obj : TpSvcChannelInterfaceGroup)
    (h : Reachable obj) :
    LedgerMatches obj.mixin ∧
    (∀ x ∈ obj.mixin.local_pending,
      g_hash_table_lookup obj.mixin.priv.local_pending_info x ≠ none) ∧
    (∀ x, x ∉ obj.mixin.local_pending →
      g_hash_table_lookup obj.mixin.priv.local_pending_info x = none) ∧
    ∃ arr, tp_group_mixin_get_local_pending_members_with_info obj = some arr ∧
      arr.map (fun e => e.1) = tp_intset_to_array obj.mixin.local_pending ∧
      (arr.map (fun e => e.1)).Nodup ∧
      (∀ x, x ∈ arr.map (fun e => e.1) ↔ x ∈ obj.mixin.local_pending) ∧
      ∀ e ∈ arr, g_hash_table_lookup obj.mixin.priv.local_pending_info e.1 =
        some { actor := e.2.1, reason := e.2.2.1, message := e.2.2.2 } := by
  have hl := ledger_matches_of_reachable obj h
  have hk := ((ledger_matches_iff obj.mixin).mp hl).2
  have hsome : ∀ x ∈ tp_intset_to_array obj.mixin.local_pending,
      (g_hash_table_lookup obj.mixin.priv.local_pending_info x).isSome := by
    intro x hx
    exact (hk x).mpr ((mem_tp_intset_to_array _ x).mp hx)
  obtain ⟨arr, h1, h2, h3⟩ := with_info_foldl obj.mixin _ [] hsome
  refine ⟨hl, ?_, ?_, arr, ?_, h2, ?_, ?_, h3⟩
  · intro x hx hnone
    have := (hk x).mpr hx
    rw [hnone] at this
    exact absurd this (by simp)
  · intro x hx
    have := (hk x).not.mpr hx
    simpa using this
  · simpa [tp_group_mixin_get_local_pending_members_with_info, tp_intset_foreach] using h1
  · rw [h2]; exact nodup_tp_intset_to_array _
  · intro x; rw [h2]; exact mem_tp_intset_to_array _ x

theorem reachable_ledger_matches_local_pending_witness :
    Reachable (tp_group_mixin_change_members (tp_group_mixin_init 0) "hello" none none
      (some {7}) none 3 TP_CHANNEL_GROUP_CHANGE_REASON_INVITED).1 ∧
    LedgerMatches (tp_group_mixin_change_members (tp_group_mixin_init 0) "hello" none none
      (some {7}) none 3 TP_CHANNEL_GROUP_CHANGE_REASON_INVITED).1.mixin ∧
    tp_group_mixin_get_local_pending_members_with_info
      (tp_group_mixin_change_members (tp_group_mixin_init 0) "hello" none none
        (some {7}) none 3 TP_CHANNEL_GROUP_CHANGE_REASON_INVITED).1 =
      some [(7, 3, 4, "hello")] :=
  ⟨Reachable.change_members (Reachable.init 0) "hello" none none (some {7}) none 3
      TP_CHANNEL_GROUP_CHANGE_REASON_INVITED,
    (reachable_ledger_matches_local_pending _
      (Reachable.change_members (Reachable.init 0) "hello" none none (some {7}) none 3
        TP_CHANNEL_GROUP_CHANGE_REASON_INVITED)).1,
    by decide⟩

/-- C3: `tp_group_mixin_change_members` returns TRUE if and only if one of the
four net delta sets it computed is non-empty, the newly local-pending set being
the `local_pending` argument minus the previous `local_pending` and the newly
remote-pending set the `remote_pending` argument minus the previous
`remote_pending`; when it returns TRUE it emits exactly one MembersChanged
signal, carrying those four sets and the message, actor and reason passed in,
and when it returns FALSE it emits none. -/
theorem change_members_true_iff_some_delta (obj : TpSvcChannelInterfaceGroup)
    (message : String) (add remove local_pending remote_pending : Option TpIntSet)
    (actor : TpHandle) (reason : Nat) :
    (tp_group_mixin_change_members_update obj.mixin message add remove local_pending
        remote_pending actor reason).new_local_pending =
      local_pending.getD ∅ \ obj.mixin.local_pending ∧
    (tp_group_mixin_change_members_update obj.mixin message add remove local_pending
        remote_pending actor reason).new_remote_pending =
      remote_pending.getD ∅ \ obj.mixin.remote_pending ∧
    ((tp_group_mixin_change_members obj message add remove local_pending remote_pending
        actor reason).2 = true ↔
      ((tp_group_mixin_change_members_update obj.mixin message add remove local_pending
          remote_pending actor reason).new_add ≠ ∅ ∨
        (tp_group_mixin_change_members_update obj.mixin message add remove local_pending
          remote_pending actor reason).new_remove ≠ ∅ ∨
        (tp_group_mixin_change_members_update obj.mixin message add remove local_pending
          remote_pending actor reason).new_local_pending ≠ ∅ ∨
        (tp_group_mixin_change_members_update obj.mixin message add remove local_pending
          remote_pending actor reason).new_remote_pending ≠ ∅)) ∧
    ((tp_group_mixin_change_members obj message add remove local_pending remote_pending
        actor reason).2 = true →
      (tp_group_mixin_change_members obj message add remove local_pending remote_pending
          actor reason).1.emitted =
        obj.emitted ++
          [GroupSignal.members_changed message
            (tp_intset_to_array (tp_group_mixin_change_members_update obj.mixin message add
              remove local_pending remote_pending actor reason).new_add)
            (tp_intset_to_array (tp_group_mixin_change_members_update obj.mixin message add
              remove local_pending remote_pending actor reason).new_remove)
            (tp_intset_to_array (tp_group_mixin_change_members_update obj.mixin message add
              remove local_pending remote_pending actor reason).new_local_pending)
            (tp_intset_to_array (tp_group_mixin_change_members_update obj.mixin message add
              remove local_pending remote_pending actor reason).new_remote_pending)
            actor reason]) ∧
    ((tp_group_mixin_change_members obj message add remove local_pending remote_pending
        actor reason).2 = false →
      (tp_group_mixin_change_members obj message add remove local_pending remote_pending
          actor reason).1.emitted = obj.emitted) := by
  refine ⟨by rw [change_members_update_eq], by rw [change_members_update_eq],
    change_members_ret_iff obj message add remove local_pending remote_pending actor reason,
    ?_, ?_⟩
  · intro h
    rw [change_members_emitted, if_pos h]
  · intro h
    rw [change_members_emitted, if_neg (by simp [h])]

/-- C4, as stated, fails: on the initial state, a call with `add = {1}` and
`remove = {1}` leaves the three sets as they were, yet returns TRUE and emits a
MembersChanged signal reporting 1 as added and as removed. -/
theorem change_members_unchanged_yet_signalled :
    (tp_group_mixin_change_members (tp_group_mixin_init 0) "" (some {1}) (some {1}) none none
        0 0).1.mixin.members = (tp_group_mixin_init 0).mixin.members ∧
    (tp_group_mixin_change_members (tp_group_mixin_init 0) "" (some {1}) (some {1}) none none
        0 0).1.mixin.local_pending = (tp_group_mixin_init 0).mixin.local_pending ∧
    (tp_group_mixin_change_members (tp_group_mixin_init 0) "" (some {1}) (some {1}) none none
        0 0).1.mixin.remote_pending = (tp_group_mixin_init 0).mixin.remote_pending ∧
    (tp_group_mixin_change_members (tp_group_mixin_init 0) "" (some {1}) (some {1}) none none
        0 0).2 = true ∧
    (tp_group_mixin_change_members (tp_group_mixin_init 0) "" (some {1}) (some {1}) none none
        0 0).1.emitted = [GroupSignal.members_changed "" [1] [1] [] [] 0 0] := by
  decide

/-- C4, amended: when the four candidate sets are pairwise disjoint, a call to
`tp_group_mixin_change_members` that leaves `members`, `local_pending` and
`remote_pending` equal to what they were returns FALSE and emits no
MembersChanged signal. -/
theorem change_members_unchanged_suppresses_signal (obj : TpSvcChannelInterfaceGroup)
    (message : String) (add remove local_pending remote_pending : Option TpIntSet)
    (actor : TpHandle) (reason : Nat)
    (har : Disjoint (add.getD ∅) (remove.getD ∅))
    (hal : Disjoint (add.getD ∅) (local_pending.getD ∅))
    (hap : Disjoint (add.getD ∅) (remote_pending.getD ∅))
    (hrl : Disjoint (remove.getD ∅) (local_pending.getD ∅))
    (hrp : Disjoint (remove.getD ∅) (remote_pending.getD ∅))
    (hlp : Disjoint (local_pending.getD ∅) (remote_pending.getD ∅))
    (hM : (tp_group_mixin_change_members obj message add remove local_pending remote_pending
      actor reason).1.mixin.members = obj.mixin.members)
    (hL : (tp_group_mixin_change_members obj message add remove local_pending remote_pending
      actor reason).1.mixin.local_pending = obj.mixin.local_pending)
    (hR : (tp_group_mixin_change_members obj message add remove local_pending remote_pending
      actor reason).1.mixin.remote_pending = obj.mixin.remote_pending) :
    (tp_group_mixin_change_members obj message add remove local_pending remote_pending
      actor reason).2 = false ∧
    (tp_group_mixin_change_members obj message add remove local_pending remote_pending
      actor reason).1.emitted = obj.emitted := by
  obtain ⟨hm, hl, hr⟩ := change_members_mixin_sets obj message add remove local_pending
    remote_pending actor reason
  rw [hm] at hM
  rw [hl] at hL
  rw [hr] at hR
  have key : ¬ (tp_group_mixin_change_members obj message add remove local_pending
      remote_pending actor reason).2 = true := by
    rw [change_members_ret_iff, change_members_update_eq]
    simp only [Finset.disjoint_left] at har hal hap hrl hrp hlp
    rintro (h | h | h | h)
    · obtain ⟨x, hx⟩ := Finset.nonempty_of_ne_empty h
      have eM := Finset.ext_iff.mp hM x
      have h1 := @har x
      have h2 := @hal x
      have h3 := @hap x
      simp only [Finset.mem_sdiff, Finset.mem_union] at hx eM
      clear hM hL hR har hal hap hrl hrp hlp h hm hl hr
      tauto
    · obtain ⟨x, hx⟩ := Finset.nonempty_of_ne_empty h
      have eM := Finset.ext_iff.mp hM x
      have eL := Finset.ext_iff.mp hL x
      have eR := Finset.ext_iff.mp hR x
      have h1 := @har x
      have h2 := @hrl x
      have h3 := @hrp x
      simp only [Finset.mem_sdiff, Finset.mem_union, Finset.mem_inter] at hx eM eL eR
      clear hM hL hR har hal hap hrl hrp hlp h hm hl hr
      rcases hx with (⟨hx1, hx2⟩ | ⟨hx1, hx2⟩) | ⟨hx1, hx2⟩
      · clear eL eR; tauto
      · clear eM eR; tauto
      · clear eM eL; tauto
    · obtain ⟨x, hx⟩ := Finset.nonempty_of_ne_empty h
      have eL := Finset.ext_iff.mp hL x
      have h1 := @hal x
      have h2 := @hrl x
      have h3 := @hlp x
      simp only [Finset.mem_sdiff, Finset.mem_union] at hx eL
      clear hM hL hR har hal hap hrl hrp hlp h hm hl hr
      tauto
    · obtain ⟨x, hx⟩ := Finset.nonempty_of_ne_empty h
      have eR := Finset.ext_iff.mp hR x
      have h1 := @hap x
      have h2 := @hrp x
      have h3 := @hlp x
      simp only [Finset.mem_sdiff, Finset.mem_union] at hx eR
      clear hM hL hR har hal hap hrl hrp hlp h hm hl hr
      tauto
  have hf : (tp_group_mixin_change_members obj message add remove local_pending
      remote_pending actor reason).2 = false := by simpa using key
  exact ⟨hf, by rw [change_members_emitted, if_neg key]⟩

theorem change_members_unchanged_suppresses_signal_witness :
    (tp_group_mixin_change_members
        (tp_group_mixin_change_members (tp_group_mixin_init 0) "" (some {1}) none none none
          0 0).1 "again" (some {1}) none none none 2 0).2 = false ∧
    (tp_group_mixin_change_members
        (tp_group_mixin_change_members (tp_group_mixin_init 0) "" (some {1}) none none none
          0 0).1 "again" (some {1}) none none none 2 0).1.emitted =
      (tp_group_mixin_change_members (tp_group_mixin_init 0) "" (some {1}) none none none
          0 0).1.emitted :=
  change_members_unchanged_suppresses_signal
    (tp_group_mixin_change_members (tp_group_mixin_init 0) "" (some {1}) none none none 0 0).1
    "again" (some {1}) none none none 2 0
    (by decide) (by decide) (by decide) (by decide) (by decide) (by decide)
    (by decide) (by decide) (by decide)

/-- C5: empty call.  `tp_group_mixin_change_members` with all four candidate
sets empty or `NULL`, whatever the actor, reason and message, returns FALSE and
leaves the whole object as it was: no signal is emitted and the three sets, the
pending-invite ledger, the owner map and the actor ledger are unchanged. -/
theorem change_members_empty_call (obj : TpSvcChannelInterfaceGroup) (message : String)
    (add remove local_pending remote_pending : Option TpIntSet) (actor : TpHandle)
    (reason : Nat)
    (ha : add = none ∨ add = some ∅) (hr : remove = none ∨ remove = some ∅)
    (hl : local_pending = none ∨ local_pending = some ∅)
    (hp : remote_pending = none ∨ remote_pending = some ∅) :
    (tp_group_mixin_change_members obj message add remove local_pending remote_pending
      actor reason).2 = false ∧
    (tp_group_mixin_change_members obj message add remove local_pending remote_pending
      actor reason).1 = obj := by
  have ha2 : add.getD ∅ = ∅ := by rcases ha with h | h <;> simp [h]
  have hr2 : remove.getD ∅ = ∅ := by rcases hr with h | h <;> simp [h]
  have hl2 : local_pending.getD ∅ = ∅ := by rcases hl with h | h <;> simp [h]
  have hp2 : remote_pending.getD ∅ = ∅ := by rcases hp with h | h <;> simp [h]
  have hd : tp_group_mixin_change_members_update obj.mixin message add remove local_pending
      remote_pending actor reason =
      { mixin := obj.mixin, new_add := ∅, new_remove := ∅, new_local_pending := ∅,
        new_remote_pending := ∅ } := by
    rw [change_members_update_eq, ha2, hr2, hl2, hp2]
    simp [tp_intset_to_array_empty]
  rw [change_members_eq, hd]
  simp

theorem change_members_empty_call_witness :
    (tp_group_mixin_change_members
        (tp_group_mixin_change_members (tp_group_mixin_init 0) "" (some {1}) none (some {7})
          none 3 TP_CHANNEL_GROUP_CHANGE_REASON_INVITED).1
        "bye" none (some ∅) none (some ∅) 5 2).2 = false ∧
    (tp_group_mixin_change_members
        (tp_group_mixin_change_members (tp_group_mixin_init 0) "" (some {1}) none (some {7})
          none 3 TP_CHANNEL_GROUP_CHANGE_REASON_INVITED).1
        "bye" none (some ∅) none (some ∅) 5 2).1 =
      (tp_group_mixin_change_members (tp_group_mixin_init 0) "" (some {1}) none (some {7})
          none 3 TP_CHANNEL_GROUP_CHANGE_REASON_INVITED).1 :=
  change_members_empty_call _ "bye" none (some ∅) none (some ∅) 5 2
    (Or.inl rfl) (Or.inr rfl) (Or.inl rfl) (Or.inr rfl)

/-- C6: round trip pending -> member.  From every state (so from every reachable
one) and for every handle `x`, a call to `tp_group_mixin_change_members` with
`local_pending = {x}` followed by a call with `add = {x}`, the other sets being
empty or `NULL` in both, leaves `x` in `members` and in neither pending set,
leaves no pending-invite entry for `x`, and the second call returns TRUE and
reports the added set exactly `{x}`. -/
theorem pending_then_add_round_trip (obj : TpSvcChannelInterfaceGroup) (x : TpHandle)
    (m1 m2 : String) (a1 r1 a2 r2 : Nat) (e1 e2 e3 e4 e5 e6 : Option TpIntSet)
    (h1 : e1.getD ∅ = ∅) (h2 : e2.getD ∅ = ∅) (h3 : e3.getD ∅ = ∅)
    (h4 : e4.getD ∅ = ∅) (h5 : e5.getD ∅ = ∅) (h6 : e6.getD ∅ = ∅) :
    x ∈ (tp_group_mixin_change_members
      (tp_group_mixin_change_members obj m1 e1 e2 (some {x}) e3 a1 r1).1
      m2 (some {x}) e4 e5 e6 a2 r2).1.mixin.members ∧
    x ∉ (tp_group_mixin_change_members
      (tp_group_mixin_change_members obj m1 e1 e2 (some {x}) e3 a1 r1).1
      m2 (some {x}) e4 e5 e6 a2 r2).1.mixin.local_pending ∧
    x ∉ (tp_group_mixin_change_members
      (tp_group_mixin_change_members obj m1 e1 e2 (some {x}) e3 a1 r1).1
      m2 (some {x}) e4 e5 e6 a2 r2).1.mixin.remote_pending ∧
    g_hash_table_lookup (tp_group_mixin_change_members
      (tp_group_mixin_change_members obj m1 e1 e2 (some {x}) e3 a1 r1).1
      m2 (some {x}) e4 e5 e6 a2 r2).1.mixin.priv.local_pending_info x = none ∧
    (tp_group_mixin_change_members
      (tp_group_mixin_change_members obj m1 e1 e2 (some {x}) e3 a1 r1).1
      m2 (some {x}) e4 e5 e6 a2 r2).2 = true ∧
    (tp_group_mixin_change_members_update
      (tp_group_mixin_change_members obj m1 e1 e2 (some {x}) e3 a1 r1).1.mixin
      m2 (some {x}) e4 e5 e6 a2 r2).new_add = {x} ∧
    (tp_group_mixin_change_members
      (tp_group_mixin_change_members obj m1 e1 e2 (some {x}) e3 a1 r1).1
      m2 (some {x}) e4 e5 e6 a2 r2).1.emitted =
      (tp_group_mixin_change_members obj m1 e1 e2 (some {x}) e3 a1 r1).1.emitted ++
        [GroupSignal.members_changed m2 [x] [] [] [] a2 r2] := by
  obtain ⟨hm1, hl1, hr1⟩ := change_members_mixin_sets obj m1 e1 e2 (some {x}) e3 a1 r1
  generalize tp_group_mixin_change_members obj m1 e1 e2 (some {x}) e3 a1 r1 = o1 at hm1 hl1 hr1 ⊢
  have hx1 : x ∉ o1.1.mixin.members := by rw [hm1]; simp
  have hx2 : x ∈ o1.1.mixin.local_pending := by rw [hl1, h1, h2, h3]; simp
  obtain ⟨hm2, hl2, hr2⟩ := change_members_mixin_sets o1.1 m2 (some {x}) e4 e5 e6 a2 r2
  have hd : tp_group_mixin_change_members_update o1.1.mixin m2 (some {x}) e4 e5 e6 a2 r2 =
      { mixin := (tp_group_mixin_change_members_update o1.1.mixin m2 (some {x}) e4 e5 e6
          a2 r2).mixin
        new_add := {x}, new_remove := ∅, new_local_pending := ∅, new_remote_pending := ∅ } := by
    rw [change_members_update_eq, h4, h5, h6]
    simp [hx1]
  have hret : (tp_group_mixin_change_members o1.1 m2 (some {x}) e4 e5 e6 a2 r2).2 = true := by
    rw [change_members_ret_iff, hd]
    simp
  refine ⟨?_, ?_, ?_, ?_, hret, by rw [hd], ?_⟩
  · rw [hm2, h4, h5, h6]; simp
  · rw [hl2]; simp
  · rw [hr2]; simp
  · rw [change_members_lookup_info]; simp [hx2]
  · rw [change_members_emitted, if_pos hret, hd]
    simp [tp_intset_to_array_empty, tp_intset_to_array_singleton]

theorem pending_then_add_round_trip_witness :
    7 ∈ (tp_group_mixin_change_members
      (tp_group_mixin_change_members (tp_group_mixin_init 0) "join?" none (some ∅) (some {7})
        none 3 TP_CHANNEL_GROUP_CHANGE_REASON_INVITED).1
      "welcome" (some {7}) none none (some ∅) 0 0).1.mixin.members ∧
    (tp_group_mixin_change_members
      (tp_group_mixin_change_members (tp_group_mixin_init 0) "join?" none (some ∅) (some {7})
        none 3 TP_CHANNEL_GROUP_CHANGE_REASON_INVITED).1
      "welcome" (some {7}) none none (some ∅) 0 0).2 = true :=
  ⟨(pending_then_add_round_trip (tp_group_mixin_init 0) 7 "join?" "welcome" 3
      TP_CHANNEL_GROUP_CHANGE_REASON_INVITED 0 0 none (some ∅) none none none (some ∅)
      rfl rfl rfl rfl rfl rfl).1,
    (pending_then_add_round_trip (tp_group_mixin_init 0) 7 "join?" "welcome" 3
      TP_CHANNEL_GROUP_CHANGE_REASON_INVITED 0 0 none (some ∅) none none none (some ∅)
      rfl rfl rfl rfl rfl rfl).2.2.2.2.1⟩

/-- C7: provenance recording.  After `tp_group_mixin_change_members` with actor
`a`, reason `r` and message `m`, every handle that was not in `local_pending`
before the call and is in it after the call has the ledger entry
`(actor = a, reason = r, message = m)`; in particular, with the `local_pending`
argument `{7}`, actor 3 and reason INVITED on a state where 7 is not local
pending, 7 becomes local pending with the entry `(3, INVITED, m)`. -/
theorem new_local_pending_entry_records_provenance :
    (∀ (obj : TpSvcChannelInterfaceGroup) (message : String)
        (add remove local_pending remote_pending : Option TpIntSet) (actor : TpHandle)
        (reason : Nat) (x : TpHandle),
      x ∉ obj.mixin.local_pending →
      x ∈ (tp_group_mixin_change_members obj message add remove local_pending remote_pending
        actor reason).1.mixin.local_pending →
      g_hash_table_lookup (tp_group_mixin_change_members obj message add remove local_pending
          remote_pending actor reason).1.mixin.priv.local_pending_info x =
        some { actor := actor, reason := reason, message := message }) ∧
    (∀ (obj : TpSvcChannelInterfaceGroup) (message : String) (e1 e2 e3 : Option TpIntSet),
      e1.getD ∅ = ∅ → e2.getD ∅ = ∅ → e3.getD ∅ = ∅ →
      7 ∉ obj.mixin.local_pending →
      7 ∈ (tp_group_mixin_change_members obj message e1 e2 (some {7}) e3 3
        TP_CHANNEL_GROUP_CHANGE_REASON_INVITED).1.mixin.local_pending ∧
      g_hash_table_lookup (tp_group_mixin_change_members obj message e1 e2 (some {7}) e3 3
          TP_CHANNEL_GROUP_CHANGE_REASON_INVITED).1.mixin.priv.local_pending_info 7 =
        some { actor := 3, reason := TP_CHANNEL_GROUP_CHANGE_REASON_INVITED,
               message := message }) := by
  have gen : ∀ (obj : TpSvcChannelInterfaceGroup) (message : String)
      (add remove local_pending remote_pending : Option TpIntSet) (actor : TpHandle)
      (reason : Nat) (x : TpHandle),
      x ∉ obj.mixin.local_pending →
      x ∈ (tp_group_mixin_change_members obj message add remove local_pending remote_pending
        actor reason).1.mixin.local_pending →
      g_hash_table_lookup (tp_group_mixin_change_members obj message add remove local_pending
          remote_pending actor reason).1.mixin.priv.local_pending_info x =
        some { actor := actor, reason := reason, message := message } := by
    intro obj message add remove local_pending remote_pending actor reason x hx hx2
    rw [(change_members_mixin_sets obj message add remove local_pending remote_pending
      actor reason).2.1] at hx2
    simp only [Finset.mem_sdiff, Finset.mem_union] at hx2
    rw [change_members_lookup_info]
    have hlp : x ∈ local_pending.getD ∅ := by tauto
    simp [hx2.1.1.2, hx2.1.2, hx2.2, hlp, local_pending_info_new]
  refine ⟨gen, ?_⟩
  intro obj message e1 e2 e3 h1 h2 h3 h7
  have hin : 7 ∈ (tp_group_mixin_change_members obj message e1 e2 (some {7}) e3 3
      TP_CHANNEL_GROUP_CHANGE_REASON_INVITED).1.mixin.local_pending := by
    rw [(change_members_mixin_sets obj message e1 e2 (some {7}) e3 3
      TP_CHANNEL_GROUP_CHANGE_REASON_INVITED).2.1, h1, h2, h3]
    simp
  exact ⟨hin, gen obj message e1 e2 (some {7}) e3 3 _ 7 h7 hin⟩

theorem new_local_pending_entry_records_provenance_witness :
    g_hash_table_lookup (tp_group_mixin_change_members (tp_group_mixin_init 0) "come in"
        none none (some {7}) none 3
        TP_CHANNEL_GROUP_CHANGE_REASON_INVITED).1.mixin.priv.local_pending_info 7 =
      some { actor := 3, reason := 4, message := "come in" } :=
  (new_local_pending_entry_records_provenance.2 (tp_group_mixin_init 0) "come in"
    none none none rfl rfl rfl (by decide)).2

/-- C8: owner-map cleanup.  After `tp_group_mixin_change_members` the owner map
is the previous owner map with exactly the entries whose key is in the reported
removed set deleted, every other entry unchanged (when the call returns FALSE
the removed set is empty); so after `tp_group_mixin_add_handle_owner (10, 20)`
with 10 a member, a call with `remove = {10}` returns TRUE and leaves no owner
entry for key 10. -/
theorem change_members_deletes_owners_of_removed :
    (∀ (obj : TpSvcChannelInterfaceGroup) (message : String)
        (add remove local_pending remote_pending : Option TpIntSet) (actor : TpHandle)
        (reason : Nat),
      (tp_group_mixin_change_members obj message add remove local_pending remote_pending
          actor reason).1.mixin.priv.handle_owners =
        obj.mixin.priv.handle_owners.filter
          (fun p => decide (p.1 ∉ (tp_group_mixin_change_members_update obj.mixin message add
            remove local_pending remote_pending actor reason).new_remove)) ∧
      ∀ k, g_hash_table_lookup (tp_group_mixin_change_members obj message add remove
          local_pending remote_pending actor reason).1.mixin.priv.handle_owners k =
        if k ∈ (tp_group_mixin_change_members_update obj.mixin message add remove
            local_pending remote_pending actor reason).new_remove then none
        else g_hash_table_lookup obj.mixin.priv.handle_owners k) ∧
    (∀ (obj : TpSvcChannelInterfaceGroup) (message : String) (e1 e2 e3 : Option TpIntSet)
        (actor : TpHandle) (reason : Nat),
      10 ∈ obj.mixin.members →
      g_hash_table_lookup
        (tp_group_mixin_add_handle_owner obj 10 20).mixin.priv.handle_owners 10 = some 20 ∧
      (tp_group_mixin_change_members (tp_group_mixin_add_handle_owner obj 10 20) message
        e1 (some {10}) e2 e3 actor reason).2 = true ∧
      g_hash_table_lookup (tp_group_mixin_change_members
        (tp_group_mixin_add_handle_owner obj 10 20) message
        e1 (some {10}) e2 e3 actor reason).1.mixin.priv.handle_owners 10 = none) := by
  have gen : ∀ (obj : TpSvcChannelInterfaceGroup) (message : String)
      (add remove local_pending remote_pending : Option TpIntSet) (actor : TpHandle)
      (reason : Nat) (k : Nat),
      g_hash_table_lookup (tp_group_mixin_change_members obj message add remove
          local_pending remote_pending actor reason).1.mixin.priv.handle_owners k =
        if k ∈ (tp_group_mixin_change_members_update obj.mixin message add remove
            local_pending remote_pending actor reason).new_remove then none
        else g_hash_table_lookup obj.mixin.priv.handle_owners k := by
    intro obj message add remove local_pending remote_pending actor reason k
    rw [change_members_owners, lookup_filter_not_mem]
  refine ⟨fun obj message add remove local_pending remote_pending actor reason =>
    ⟨change_members_owners obj message add remove local_pending remote_pending actor reason,
      gen obj message add remove local_pending remote_pending actor reason⟩, ?_⟩
  intro obj message e1 e2 e3 actor reason h10
  have hmem : (10 : Nat) ∈ (tp_group_mixin_change_members_update
      (tp_group_mixin_add_handle_owner obj 10 20).mixin message e1 (some {10}) e2 e3
      actor reason).new_remove := by
    rw [change_members_update_eq]
    simp [tp_group_mixin_add_handle_owner, h10]
  refine ⟨?_, ?_, ?_⟩
  · simp [tp_group_mixin_add_handle_owner, lookup_insert]
  · rw [change_members_ret_iff]
    exact Or.inr (Or.inl (Finset.ne_empty_of_mem hmem))
  · rw [gen, if_pos hmem]

theorem change_members_deletes_owners_of_removed_witness :
    g_hash_table_lookup (tp_group_mixin_change_members
      (tp_group_mixin_add_handle_owner
        (tp_group_mixin_change_members (tp_group_mixin_init 0) "" (some {10}) none none none
          0 0).1 10 20)
      "left" none (some {10}) none none 0 0).1.mixin.priv.handle_owners 10 = none :=
  (change_members_deletes_owners_of_removed.2
    (tp_group_mixin_change_members (tp_group_mixin_init 0) "" (some {10}) none none none
      0 0).1 "left" none none none 0 0 (by decide)).2.2

/-- C9: actor ledger.  After a call to `tp_group_mixin_change_members` that
returns TRUE with actor `a`, the actor ledger is the previous ledger with `a`
added when `a` is non-zero and is the previous ledger when `a` is 0; no call,
whatever it returns, removes a handle from the actor ledger. -/
theorem change_members_records_actor (obj : TpSvcChannelInterfaceGroup) (message : String)
    (add remove local_pending remote_pending : Option TpIntSet) (actor : TpHandle)
    (reason : Nat) :
    ((tp_group_mixin_change_members obj message add remove local_pending remote_pending
        actor reason).2 = true → actor ≠ 0 →
      (tp_group_mixin_change_members obj message add remove local_pending remote_pending
        actor reason).1.mixin.priv.actors = insert actor obj.mixin.priv.actors) ∧
    ((tp_group_mixin_change_members obj message add remove local_pending remote_pending
        actor reason).2 = true → actor = 0 →
      (tp_group_mixin_change_members obj message add remove local_pending remote_pending
        actor reason).1.mixin.priv.actors = obj.mixin.priv.actors) ∧
    obj.mixin.priv.actors ⊆
      (tp_group_mixin_change_members obj message add remove local_pending remote_pending
        actor reason).1.mixin.priv.actors := by
  refine ⟨?_, ?_, ?_⟩
  · intro h ha
    rw [change_members_actors, if_pos ⟨h, ha⟩]
  · intro h ha
    rw [change_members_actors, if_neg (fun hc => hc.2 ha)]
  · rw [change_members_actors]
    split
    · exact Finset.subset_insert _ _
    · exact Finset.Subset.refl _

theorem change_members_records_actor_witness :
    (tp_group_mixin_change_members (tp_group_mixin_init 0) "" (some {5}) none none none
      3 0).1.mixin.priv.actors = insert 3 (tp_group_mixin_init 0).mixin.priv.actors :=
  (change_members_records_actor (tp_group_mixin_init 0) "" (some {5}) none none none
    3 0).1 (by decide) (by decide)

/-- C10, as stated, fails: with flags 0, `tp_group_mixin_change_flags` called
with both masks equal to CAN_ADD reports the removed mask CAN_ADD, whereas
`remove_mask AND f` is 0. -/
theorem change_flags_removed_counts_bits_just_added :
    (tp_group_mixin_change_flags (tp_group_mixin_init 0) TP_CHANNEL_GROUP_FLAG_CAN_ADD
        TP_CHANNEL_GROUP_FLAG_CAN_ADD).emitted =
      [GroupSignal.group_flags_changed TP_CHANNEL_GROUP_FLAG_CAN_ADD
        TP_CHANNEL_GROUP_FLAG_CAN_ADD] ∧
    TP_CHANNEL_GROUP_FLAG_CAN_ADD &&& (tp_group_mixin_init 0).mixin.group_flags ≠
      TP_CHANNEL_GROUP_FLAG_CAN_ADD := by
  decide

/-- C10, amended: for every current flag value `f` and masks `add_mask`,
`remove_mask`, `tp_group_mixin_change_flags` reports `added = add_mask AND NOT f`
and `removed = remove_mask AND (f OR added)`, the removed mask being taken on the
flags after the addition; it leaves the flags equal to
`(f OR added) AND NOT removed`; and `removed` is `remove_mask AND f` whenever the
two masks share no bit outside `f`. -/
theorem change_flags_reports_added_and_removed (obj : TpSvcChannelInterfaceGroup)
    (add remove : Nat) :
    ((add ≠ 0 ∨ remove ≠ 0) →
      (tp_group_mixin_change_flags obj add remove).emitted =
        obj.emitted ++
          [GroupSignal.group_flags_changed (add &&& guint_not obj.mixin.group_flags)
            (remove &&& (obj.mixin.group_flags ||| (add &&& guint_not obj.mixin.group_flags)))]) ∧
    (tp_group_mixin_change_flags obj add remove).mixin.group_flags =
      (obj.mixin.group_flags ||| (add &&& guint_not obj.mixin.group_flags)) &&&
        guint_not
          (remove &&& (obj.mixin.group_flags ||| (add &&& guint_not obj.mixin.group_flags))) ∧
    (remove &&& add &&& guint_not obj.mixin.group_flags = 0 →
      remove &&& (obj.mixin.group_flags ||| (add &&& guint_not obj.mixin.group_flags)) =
        remove &&& obj.mixin.group_flags) := by
  refine ⟨?_, ?_, and_or_added_eq _ _ _⟩
  · intro h
    unfold tp_group_mixin_change_flags
    simp only [if_pos h]
  · unfold tp_group_mixin_change_flags
    split <;> rfl

theorem change_flags_reports_added_and_removed_witness :
    (tp_group_mixin_change_flags (tp_group_mixin_change_flags (tp_group_mixin_init 0) 3 0)
        4 2).emitted =
      [GroupSignal.group_flags_changed 3 0, GroupSignal.group_flags_changed 4 2] ∧
    (tp_group_mixin_change_flags (tp_group_mixin_change_flags (tp_group_mixin_init 0) 3 0)
        4 2).mixin.group_flags = 5 :=
  ⟨(change_flags_reports_added_and_removed
      (tp_group_mixin_change_flags (tp_group_mixin_init 0) 3 0) 4 2).1 (by decide),
    ((change_flags_reports_added_and_removed
      (tp_group_mixin_change_flags (tp_group_mixin_init 0) 3 0) 4 2).2.1).trans (by decide)⟩

/-- C11: `tp_group_mixin_change_flags` emits exactly one GroupFlagsChanged signal
if and only if `add_mask OR remove_mask` is non-zero, and no signal otherwise;
called with both masks zero on 32-bit flags it leaves the flags, and the whole
object, unchanged and emits nothing. -/
theorem change_flags_emits_iff_some_mask_nonzero (obj : TpSvcChannelInterfaceGroup)
    (add remove : Nat) :
    ((∃ added removed, (tp_group_mixin_change_flags obj add remove).emitted =
        obj.emitted ++ [GroupSignal.group_flags_changed added removed]) ↔
      add ||| remove ≠ 0) ∧
    (add ||| remove = 0 → (tp_group_mixin_change_flags obj add remove).emitted = obj.emitted) ∧
    (obj.mixin.group_flags < 4294967296 →
      (tp_group_mixin_change_flags obj 0 0).mixin.group_flags = obj.mixin.group_flags ∧
      (tp_group_mixin_change_flags obj 0 0).emitted = obj.emitted ∧
      tp_group_mixin_change_flags obj 0 0 = obj) := by
  have hc : (add ≠ 0 ∨ remove ≠ 0) ↔ add ||| remove ≠ 0 := by
    have hz := mask_or_eq_zero_iff add remove
    constructor
    · intro h hn
      rcases h with h | h
      · exact h (hz.mp hn).1
      · exact h (hz.mp hn).2
    · intro h
      by_contra hn
      exact h (hz.mpr ⟨by_contra (fun ha => hn (Or.inl ha)), by_contra (fun hr => hn (Or.inr hr))⟩)
  refine ⟨?_, ?_, ?_⟩
  · rw [change_flags_emitted]
    by_cases h : add ≠ 0 ∨ remove ≠ 0
    · rw [if_pos h]
      exact ⟨fun _ => hc.mp h, fun _ => ⟨_, _, rfl⟩⟩
    · rw [if_neg h]
      constructor
      · rintro ⟨a, r, he⟩
        have hl := congrArg List.length he
        simp at hl
      · intro hn
        exact absurd (hc.mpr hn) h
  · intro h
    rw [change_flags_emitted, if_neg (fun hn => (hc.mp hn) h)]
  · intro hf
    have h := change_flags_zero_masks obj hf
    exact ⟨by rw [h], by rw [h], h⟩

theorem change_flags_emits_iff_some_mask_nonzero_witness :
    tp_group_mixin_change_flags (tp_group_mixin_change_flags (tp_group_mixin_init 0) 3 0) 0 0 =
      tp_group_mixin_change_flags (tp_group_mixin_init 0) 3 0 :=
  ((change_flags_emits_iff_some_mask_nonzero
    (tp_group_mixin_change_flags (tp_group_mixin_init 0) 3 0) 0 0).2.2 (by decide)).2.2

/-- C12, as stated, fails: on flags that already contain CAN_ADD,
`tp_group_mixin_change_flags` with `add_mask = CAN_ADD` and `remove_mask = 0`
computes the added and removed masks 0 and still emits a GroupFlagsChanged
signal, carrying `(0, 0)`. -/
theorem change_flags_signals_without_change :
    (tp_group_mixin_change_flags (tp_group_mixin_init 0) TP_CHANNEL_GROUP_FLAG_CAN_ADD
      0).mixin.group_flags = TP_CHANNEL_GROUP_FLAG_CAN_ADD ∧
    TP_CHANNEL_GROUP_FLAG_CAN_ADD &&& guint_not (tp_group_mixin_change_flags
      (tp_group_mixin_init 0) TP_CHANNEL_GROUP_FLAG_CAN_ADD 0).mixin.group_flags = 0 ∧
    (tp_group_mixin_change_flags
      (tp_group_mixin_change_flags (tp_group_mixin_init 0) TP_CHANNEL_GROUP_FLAG_CAN_ADD 0)
      TP_CHANNEL_GROUP_FLAG_CAN_ADD 0).emitted =
      (tp_group_mixin_change_flags (tp_group_mixin_init 0) TP_CHANNEL_GROUP_FLAG_CAN_ADD
        0).emitted ++ [GroupSignal.group_flags_changed 0 0] := by
  decide

/-- C12, amended: `tp_group_mixin_change_flags` emits no signal when both input
masks are zero; for masks that are not both zero and whose computed added and
removed masks are both zero (for example `add_mask = CAN_ADD`, `remove_mask = 0`
when `f` already contains CAN_ADD) it emits one GroupFlagsChanged signal, which
carries `added = 0` and `removed = 0`, and the 32-bit flags stay as they were. -/
theorem change_flags_signal_follows_input_masks (obj : TpSvcChannelInterfaceGroup)
    (add remove : Nat) :
    (add = 0 → remove = 0 →
      (tp_group_mixin_change_flags obj add remove).emitted = obj.emitted) ∧
    ((add ≠ 0 ∨ remove ≠ 0) →
      add &&& guint_not obj.mixin.group_flags = 0 →
      remove &&& (obj.mixin.group_flags ||| (add &&& guint_not obj.mixin.group_flags)) = 0 →
      (tp_group_mixin_change_flags obj add remove).emitted =
        obj.emitted ++ [GroupSignal.group_flags_changed 0 0]) ∧
    (add &&& guint_not obj.mixin.group_flags = 0 →
      remove &&& (obj.mixin.group_flags ||| (add &&& guint_not obj.mixin.group_flags)) = 0 →
      obj.mixin.group_flags < 4294967296 →
      (tp_group_mixin_change_flags obj add remove).mixin.group_flags =
        obj.mixin.group_flags) := by
  refine ⟨?_, ?_, ?_⟩
  · intro ha hr
    rw [change_flags_emitted, if_neg (by rintro (h | h) <;> [exact h ha; exact h hr])]
  · intro h ha hr
    rw [change_flags_emitted, if_pos h, hr, ha]
  · intro ha hr hf
    rw [change_flags_group_flags, hr, ha]
    simp [guint_not, and_guint_max _ hf]

theorem change_flags_signal_follows_input_masks_witness :
    (tp_group_mixin_change_flags
      (tp_group_mixin_change_flags (tp_group_mixin_init 0) 3 0) 1 0).emitted =
      (tp_group_mixin_change_flags (tp_group_mixin_init 0) 3 0).emitted ++
        [GroupSignal.group_flags_changed 0 0] ∧
    (tp_group_mixin_change_flags
      (tp_group_mixin_change_flags (tp_group_mixin_init 0) 3 0) 1 0).mixin.group_flags =
      (tp_group_mixin_change_flags (tp_group_mixin_init 0) 3 0).mixin.group_flags :=
  ⟨(change_flags_signal_follows_input_masks
      (tp_group_mixin_change_flags (tp_group_mixin_init 0) 3 0) 1 0).2.1
      (by decide) (by decide) (by decide),
    (change_flags_signal_follows_input_masks
      (tp_group_mixin_change_flags (tp_group_mixin_init 0) 3 0) 1 0).2.2
      (by decide) (by decide) (by decide)⟩

/-- C13: `tp_group_mixin_add_members` fails during validation, before any policy
callback is invoked, if and only if some handle of the batch is rejected by the
registry, or the CAN_ADD flag is unset and some handle of the batch is not in
`local_pending`; in the second case (all handles valid) the error is
PermissionDenied naming the first such handle in list order.  A batch of valid
local-pending handles passes validation whatever the flags, and with flags 0
the batch `[5]`, 5 valid and not local pending, fails with PermissionDenied(5). -/
theorem add_members_validation (repo : TpHandleRepoIface)
    (add_member : TpGroupMixinMemberFunc) (obj : TpSvcChannelInterfaceGroup)
    (contacts : List TpHandle) (message : String) :
    (add_members_validate repo obj.mixin contacts ≠ none ↔
      ((∃ h ∈ contacts, repo.is_valid h = false) ∨
        (obj.mixin.group_flags &&& TP_CHANNEL_GROUP_FLAG_CAN_ADD = 0 ∧
          ∃ h ∈ contacts, h ∉ obj.mixin.local_pending))) ∧
    (∀ e, add_members_validate repo obj.mixin contacts = some e →
      (tp_group_mixin_add_members repo add_member obj contacts message).error = some e ∧
      (tp_group_mixin_add_members repo add_member obj contacts message).calls = []) ∧
    (add_members_validate repo obj.mixin contacts = none →
      tp_group_mixin_add_members repo add_member obj contacts message =
        add_members_loop add_member obj contacts message) ∧
    ((∀ h ∈ contacts, repo.is_valid h = true) →
      obj.mixin.group_flags &&& TP_CHANNEL_GROUP_FLAG_CAN_ADD = 0 →
      ∀ h0, contacts.find? (fun h => decide (h ∉ obj.mixin.local_pending)) = some h0 →
        add_members_validate repo obj.mixin contacts =
          some { code := TpError.TP_ERROR_PERMISSION_DENIED, handle := some h0 }) ∧
    ((∀ h ∈ contacts, repo.is_valid h = true ∧ h ∈ obj.mixin.local_pending) →
      add_members_validate repo obj.mixin contacts = none) ∧
    (obj.mixin.group_flags = 0 → repo.is_valid 5 = true → 5 ∉ obj.mixin.local_pending →
      (tp_group_mixin_add_members repo add_member obj [5] message).error =
        some { code := TpError.TP_ERROR_PERMISSION_DENIED, handle := some 5 } ∧
      (tp_group_mixin_add_members repo add_member obj [5] message).calls = []) := by
  have hv := handles_are_valid_eq_none_iff repo contacts
  have hc := add_check_flags_eq_none_iff obj.mixin contacts
  refine ⟨?_, ?_, ?_, ?_, ?_, ?_⟩
  · unfold add_members_validate
    cases hva : tp_handles_are_valid repo contacts false with
    | some e =>
      have hne : ¬ ∀ h ∈ contacts, repo.is_valid h = true := by
        intro hall
        rw [hv.mpr hall] at hva
        exact absurd hva (by simp)
      simp only [ne_eq, not_false_eq_true, reduceCtorEq, true_iff]
      left
      by_contra hno
      apply hne
      intro h hh
      by_contra hf
      exact hno ⟨h, hh, by simpa using hf⟩
    | none =>
      have hall := hv.mp hva
      simp only [ne_eq, hc, not_not]
      constructor
      · intro h; exact Or.inr h
      · rintro (⟨h, hh, hf⟩ | h)
        · rw [hall h hh] at hf
          exact absurd hf (by simp)
        · exact h
  · intro e he
    unfold tp_group_mixin_add_members
    rw [he]
    exact ⟨rfl, rfl⟩
  · intro he
    unfold tp_group_mixin_add_members
    rw [he]
  · intro hall hf h0 hfind
    unfold add_members_validate
    rw [hv.mpr hall]
    exact add_check_flags_first obj.mixin contacts h0 hf hfind
  · intro hall
    unfold add_members_validate
    rw [hv.mpr (fun h hh => (hall h hh).1)]
    simp only
    rw [hc]
    rintro ⟨_, h, hh, hn⟩
    exact hn (hall h hh).2
  · intro hf h5 hn
    have he : add_members_validate repo obj.mixin [5] =
        some { code := TpError.TP_ERROR_PERMISSION_DENIED, handle := some 5 } := by
      simp [add_members_validate, tp_handles_are_valid, add_members_check_flags, h5, hf,
        hn, tp_handle_set_is_member]
    unfold tp_group_mixin_add_members
    rw [he]
    exact ⟨rfl, rfl⟩

theorem add_members_validation_witness :
    (tp_group_mixin_add_members sample_repo
        sample_add_member (tp_group_mixin_init 0) [5] "").error =
      some { code := TpError.TP_ERROR_PERMISSION_DENIED, handle := some 5 } ∧
    (tp_group_mixin_add_members sample_repo
        sample_add_member (tp_group_mixin_init 0) [5] "").calls = [] :=
  (add_members_validation sample_repo
    sample_add_member (tp_group_mixin_init 0) [5] "").2.2.2.2.2
    (by decide) (by decide) (by decide)

/-- C14: given a batch of valid handles, `tp_group_mixin_remove_members` fails
during validation if and only if some handle `h` of the batch is a member while
CAN_REMOVE is unset, or is not a member, is remote pending and CAN_RESCIND is
unset, or is in none of the three sets.  The error is decided by the first such
handle in list order: PermissionDenied in the first two cases, NotAvailable in
the third.  A handle in `local_pending` and in neither other set is passed
over, whatever the flags. -/
theorem remove_members_validation (repo : TpHandleRepoIface)
    (remove_member : TpGroupMixinMemberFunc) (obj : TpSvcChannelInterfaceGroup)
    (contacts : List TpHandle) (message : String)
    (hvalid : ∀ h ∈ contacts, repo.is_valid h = true) :
    (remove_members_validate repo obj.mixin contacts ≠ none ↔
      ∃ h ∈ contacts,
        (h ∈ obj.mixin.members ∧
          obj.mixin.group_flags &&& TP_CHANNEL_GROUP_FLAG_CAN_REMOVE = 0) ∨
        (h ∉ obj.mixin.members ∧ h ∈ obj.mixin.remote_pending ∧
          obj.mixin.group_flags &&& TP_CHANNEL_GROUP_FLAG_CAN_RESCIND = 0) ∨
        (h ∉ obj.mixin.members ∧ h ∉ obj.mixin.local_pending ∧
          h ∉ obj.mixin.remote_pending)) ∧
    (∀ e, remove_members_validate repo obj.mixin contacts = some e →
      (tp_group_mixin_remove_members repo remove_member obj contacts message).error = some e ∧
      (tp_group_mixin_remove_members repo remove_member obj contacts message).calls = []) ∧
    (∀ h0, contacts.find? (spec_remove_refused obj.mixin) = some h0 →
      remove_members_validate repo obj.mixin contacts =
        some { code := if h0 ∈ obj.mixin.members ∨ h0 ∈ obj.mixin.remote_pending then
                 TpError.TP_ERROR_PERMISSION_DENIED else TpError.TP_ERROR_NOT_AVAILABLE,
               handle := some h0 }) ∧
    (∀ h rest, h ∈ obj.mixin.local_pending → h ∉ obj.mixin.members →
      h ∉ obj.mixin.remote_pending →
      remove_members_check_flags obj.mixin (h :: rest) =
        remove_members_check_flags obj.mixin rest) ∧
    ((∀ h ∈ contacts, h ∈ obj.mixin.local_pending ∧ h ∉ obj.mixin.members ∧
        h ∉ obj.mixin.remote_pending) →
      remove_members_validate repo obj.mixin contacts = none) := by
  have hv := (handles_are_valid_eq_none_iff repo contacts).mpr hvalid
  have hc := remove_check_flags_eq_none_iff obj.mixin contacts
  have hval : remove_members_validate repo obj.mixin contacts =
      remove_members_check_flags obj.mixin contacts := by
    unfold remove_members_validate
    rw [hv]
  refine ⟨?_, ?_, ?_, ?_, ?_⟩
  · rw [hval, ne_eq, hc, not_not]
    simp only [spec_remove_refused, decide_eq_true_eq]
  · intro e he
    unfold tp_group_mixin_remove_members
    rw [he]
    exact ⟨rfl, rfl⟩
  · intro h0 hfind
    rw [hval]
    exact remove_check_flags_first obj.mixin contacts h0 hfind
  · intro h rest hl hm hr
    rw [remove_check_flags_cons]
    simp [spec_remove_refused, hl, hm, hr]
  · intro hall
    rw [hval, hc]
    rintro ⟨h, hh, hb⟩
    obtain ⟨hl, hm, hr⟩ := hall h hh
    simp [spec_remove_refused, hl, hm, hr] at hb

theorem remove_members_validation_witness :
    remove_members_validate sample_repo
        (tp_group_mixin_change_members (tp_group_mixin_init 0) "" (some {1}) none (some {7})
          (some {8}) 0 0).1.mixin [7, 8, 1, 9] =
      some { code := TpError.TP_ERROR_PERMISSION_DENIED, handle := some 8 } :=
  (remove_members_validation sample_repo
    sample_remove_member
    (tp_group_mixin_change_members (tp_group_mixin_init 0) "" (some {1}) none (some {7})
      (some {8}) 0 0).1 [7, 8, 1, 9] "" (by decide)).2.2.1 8 (by decide)

/-- C15: atomicity of validation.  Whenever `tp_group_mixin_add_members` or
`tp_group_mixin_remove_members` fails because a handle of the batch fails
validation (registry validity or the capability-flag check), no policy callback
has been invoked for any handle of the batch and the object is exactly what it
was before the call: flags, the three sets, the pending-invite ledger, the owner
map and the actor ledger. -/
theorem validation_failure_is_atomic (repo : TpHandleRepoIface)
    (member_func : TpGroupMixinMemberFunc) (obj : TpSvcChannelInterfaceGroup)
    (contacts : List TpHandle) (message : String) :
    (∀ e, add_members_validate repo obj.mixin contacts = some e →
      (tp_group_mixin_add_members repo member_func obj contacts message).error = some e ∧
      (tp_group_mixin_add_members repo member_func obj contacts message).calls = [] ∧
      (tp_group_mixin_add_members repo member_func obj contacts message).obj = obj) ∧
    (∀ e, remove_members_validate repo obj.mixin contacts = some e →
      (tp_group_mixin_remove_members repo member_func obj contacts message).error = some e ∧
      (tp_group_mixin_remove_members repo member_func obj contacts message).calls = [] ∧
      (tp_group_mixin_remove_members repo member_func obj contacts message).obj = obj) := by
  constructor
  · intro e he
    unfold tp_group_mixin_add_members
    rw [he]
    exact ⟨rfl, rfl, rfl⟩
  · intro e he
    unfold tp_group_mixin_remove_members
    rw [he]
    exact ⟨rfl, rfl, rfl⟩

theorem validation_failure_is_atomic_witness :
    (tp_group_mixin_remove_members sample_repo
        sample_remove_member
        (tp_group_mixin_change_members (tp_group_mixin_init 0) "" (some {1}) none (some {7})
          none 0 0).1 [7, 1] "").obj =
      (tp_group_mixin_change_members (tp_group_mixin_init 0) "" (some {1}) none (some {7})
          none 0 0).1 :=
  ((validation_failure_is_atomic sample_repo
    sample_remove_member
    (tp_group_mixin_change_members (tp_group_mixin_init 0) "" (some {1}) none (some {7})
      none 0 0).1 [7, 1] "").2
    { code := TpError.TP_ERROR_PERMISSION_DENIED, handle := some 1 } (by decide)).2.2

/-- C16, as stated, fails: with CAN_ADD set, the batch `[5, 9]` passes
validation, the `add_member` callback adds 5 and then fails for 9;
`tp_group_mixin_add_members` returns that failure and 5 stays in `members`,
which was empty before the call. -/
theorem add_members_keeps_partial_change :
    add_members_validate sample_repo
      (tp_group_mixin_change_flags (tp_group_mixin_init 0) TP_CHANNEL_GROUP_FLAG_CAN_ADD
        0).mixin [5, 9] = none ∧
    (tp_group_mixin_add_members sample_repo sample_add_member
      (tp_group_mixin_change_flags (tp_group_mixin_init 0) TP_CHANNEL_GROUP_FLAG_CAN_ADD 0)
      [5, 9] "").error = some { code := TpError.TP_ERROR_NOT_AVAILABLE, handle := some 9 } ∧
    (tp_group_mixin_add_members sample_repo sample_add_member
      (tp_group_mixin_change_flags (tp_group_mixin_init 0) TP_CHANNEL_GROUP_FLAG_CAN_ADD 0)
      [5, 9] "").obj.mixin.members = {5} ∧
    (tp_group_mixin_change_flags (tp_group_mixin_init 0) TP_CHANNEL_GROUP_FLAG_CAN_ADD
      0).mixin.members = ∅ := by
  decide

/-- C16, amended: for every batch that passes validation, if the `add_member`
(resp. `remove_member`) policy callback fails for some handle, reached after the
callbacks of the earlier handles succeeded, `tp_group_mixin_add_members` (resp.
`tp_group_mixin_remove_members`) returns that failure, invokes no callback for
the later handles, and leaves the state produced by the earlier callbacks: the
changes they made are kept. -/
theorem callback_failure_keeps_earlier_changes (repo : TpHandleRepoIface)
    (member_func : TpGroupMixinMemberFunc) (obj : TpSvcChannelInterfaceGroup)
    (pre : List TpHandle) (h : TpHandle) (post : List TpHandle) (message : String)
    (e : GError) :
    (add_members_validate repo obj.mixin (pre ++ h :: post) = none →
      (add_members_loop member_func obj pre message).error = none →
      h ∉ (add_members_loop member_func obj pre message).obj.mixin.members →
      member_func (add_members_loop member_func obj pre message).obj h message =
        Except.error e →
      (tp_group_mixin_add_members repo member_func obj (pre ++ h :: post) message).error =
        some e ∧
      (tp_group_mixin_add_members repo member_func obj (pre ++ h :: post) message).obj =
        (add_members_loop member_func obj pre message).obj ∧
      (tp_group_mixin_add_members repo member_func obj (pre ++ h :: post) message).calls =
        (add_members_loop member_func obj pre message).calls ++ [h]) ∧
    (remove_members_validate repo obj.mixin (pre ++ h :: post) = none →
      (remove_members_loop member_func obj pre message).error = none →
      member_func (remove_members_loop member_func obj pre message).obj h message =
        Except.error e →
      (tp_group_mixin_remove_members repo member_func obj (pre ++ h :: post) message).error =
        some e ∧
      (tp_group_mixin_remove_members repo member_func obj (pre ++ h :: post) message).obj =
        (remove_members_loop member_func obj pre message).obj ∧
      (tp_group_mixin_remove_members repo member_func obj (pre ++ h :: post) message).calls =
        (remove_members_loop member_func obj pre message).calls ++ [h]) := by
  constructor
  · intro hv hpre hm hcb
    have hm2 : ¬ tp_handle_set_is_member
        (add_members_loop member_func obj pre message).obj.mixin.members h = true := by
      simpa [tp_handle_set_is_member] using hm
    unfold tp_group_mixin_add_members
    rw [hv]
    simp only
    rw [add_members_loop_append, if_pos hpre]
    rw [add_members_loop.eq_def member_func _ (h :: post)]
    simp [hm2, hcb]
  · intro hv hpre hcb
    unfold tp_group_mixin_remove_members
    rw [hv]
    simp only
    rw [remove_members_loop_append, if_pos hpre]
    rw [remove_members_loop.eq_def member_func _ (h :: post)]
    simp [hcb]

theorem callback_failure_keeps_earlier_changes_witness :
    (tp_group_mixin_add_members sample_repo sample_add_member
      (tp_group_mixin_change_flags (tp_group_mixin_init 0) TP_CHANNEL_GROUP_FLAG_CAN_ADD 0)
      ([5] ++ 9 :: [6]) "").obj =
      (add_members_loop sample_add_member
        (tp_group_mixin_change_flags (tp_group_mixin_init 0) TP_CHANNEL_GROUP_FLAG_CAN_ADD 0)
        [5] "").obj ∧
    (tp_group_mixin_add_members sample_repo sample_add_member
      (tp_group_mixin_change_flags (tp_group_mixin_init 0) TP_CHANNEL_GROUP_FLAG_CAN_ADD 0)
      ([5] ++ 9 :: [6]) "").calls = [5, 9] :=
  ⟨((callback_failure_keeps_earlier_changes sample_repo sample_add_member
      (tp_group_mixin_change_flags (tp_group_mixin_init 0) TP_CHANNEL_GROUP_FLAG_CAN_ADD 0)
      [5] 9 [6] "" { code := TpError.TP_ERROR_NOT_AVAILABLE, handle := some 9 }).1
      (by decide) (by decide) (by decide) rfl).2.1,
    ((callback_failure_keeps_earlier_changes sample_repo sample_add_member
      (tp_group_mixin_change_flags (tp_group_mixin_init 0) TP_CHANNEL_GROUP_FLAG_CAN_ADD 0)
      [5] 9 [6] "" { code := TpError.TP_ERROR_NOT_AVAILABLE, handle := some 9 }).1
      (by decide) (by decide) (by decide) rfl).2.2⟩

/-- C17: members are skipped on add.  For every batch that passes validation in
`tp_group_mixin_add_members`, the `add_member` callback is invoked in list order
(the handles it is invoked on are a sublist of the batch), and a handle whose
turn comes after the callbacks of the earlier handles succeeded is skipped
without an error when it is in `members` at that moment and is passed to the
callback when it is not; a batch all of whose handles are already members
returns success with no callback invoked and the object unchanged. -/
theorem add_members_skips_current_members (repo : TpHandleRepoIface)
    (add_member : TpGroupMixinMemberFunc) (obj : TpSvcChannelInterfaceGroup)
    (contacts : List TpHandle) (message : String)
    (hv : add_members_validate repo obj.mixin contacts = none) :
    List.Sublist (tp_group_mixin_add_members repo add_member obj contacts message).calls
      contacts ∧
    (∀ pre h post, contacts = pre ++ h :: post →
      (add_members_loop add_member obj pre message).error = none →
      h ∈ (add_members_loop add_member obj pre message).obj.mixin.members →
      (tp_group_mixin_add_members repo add_member obj contacts message).obj =
        (add_members_loop add_member (add_members_loop add_member obj pre message).obj post
          message).obj ∧
      (tp_group_mixin_add_members repo add_member obj contacts message).error =
        (add_members_loop add_member (add_members_loop add_member obj pre message).obj post
          message).error ∧
      (tp_group_mixin_add_members repo add_member obj contacts message).calls =
        (add_members_loop add_member obj pre message).calls ++
          (add_members_loop add_member (add_members_loop add_member obj pre message).obj post
            message).calls) ∧
    (∀ pre h post obj2, contacts = pre ++ h :: post →
      (add_members_loop add_member obj pre message).error = none →
      h ∉ (add_members_loop add_member obj pre message).obj.mixin.members →
      add_member (add_members_loop add_member obj pre message).obj h message =
        Except.ok obj2 →
      (tp_group_mixin_add_members repo add_member obj contacts message).obj =
        (add_members_loop add_member obj2 post message).obj ∧
      (tp_group_mixin_add_members repo add_member obj contacts message).error =
        (add_members_loop add_member obj2 post message).error ∧
      (tp_group_mixin_add_members repo add_member obj contacts message).calls =
        (add_members_loop add_member obj pre message).calls ++
          h :: (add_members_loop add_member obj2 post message).calls) ∧
    ((∀ h ∈ contacts, h ∈ obj.mixin.members) →
      (tp_group_mixin_add_members repo add_member obj contacts message).error = none ∧
      (tp_group_mixin_add_members repo add_member obj contacts message).calls = [] ∧
      (tp_group_mixin_add_members repo add_member obj contacts message).obj = obj) := by
  have hfn : tp_group_mixin_add_members repo add_member obj contacts message =
      add_members_loop add_member obj contacts message := by
    unfold tp_group_mixin_add_members
    rw [hv]
  rw [hfn]
  refine ⟨add_members_loop_calls_sublist _ _ _ _, ?_, ?_, ?_⟩
  · intro pre h post hc hpre hm
    have hm2 : tp_handle_set_is_member
        (add_members_loop add_member obj pre message).obj.mixin.members h = true := by
      simpa [tp_handle_set_is_member] using hm
    rw [hc, add_members_loop_append, if_pos hpre]
    rw [add_members_loop.eq_def add_member _ (h :: post)]
    simp [hm2]
  · intro pre h post obj2 hc hpre hm hcb
    have hm2 : ¬ tp_handle_set_is_member
        (add_members_loop add_member obj pre message).obj.mixin.members h = true := by
      simpa [tp_handle_set_is_member] using hm
    rw [hc, add_members_loop_append, if_pos hpre]
    rw [add_members_loop.eq_def add_member _ (h :: post)]
    simp [hm2, hcb]
  · intro hall
    rw [add_members_loop_all_members _ _ _ _ hall]
    exact ⟨rfl, rfl, rfl⟩

theorem add_members_skips_current_members_witness :
    (tp_group_mixin_add_members sample_repo sample_add_member
      (tp_group_mixin_change_flags
        (tp_group_mixin_change_members (tp_group_mixin_init 0) "" (some {5, 6}) none none
          none 0 0).1 TP_CHANNEL_GROUP_FLAG_CAN_ADD 0)
      [5, 6, 5] "again").calls = [] ∧
    (tp_group_mixin_add_members sample_repo sample_add_member
      (tp_group_mixin_change_flags
        (tp_group_mixin_change_members (tp_group_mixin_init 0) "" (some {5, 6}) none none
          none 0 0).1 TP_CHANNEL_GROUP_FLAG_CAN_ADD 0)
      [5, 6, 5] "again").obj =
      tp_group_mixin_change_flags
        (tp_group_mixin_change_members (tp_group_mixin_init 0) "" (some {5, 6}) none none
          none 0 0).1 TP_CHANNEL_GROUP_FLAG_CAN_ADD 0 :=
  ⟨((add_members_skips_current_members sample_repo sample_add_member
      (tp_group_mixin_change_flags
        (tp_group_mixin_change_members (tp_group_mixin_init 0) "" (some {5, 6}) none none
          none 0 0).1 TP_CHANNEL_GROUP_FLAG_CAN_ADD 0)
      [5, 6, 5] "again" (by decide)).2.2.2 (by decide)).2.1,
    ((add_members_skips_current_members sample_repo sample_add_member
      (tp_group_mixin_change_flags
        (tp_group_mixin_change_members (tp_group_mixin_init 0) "" (some {5, 6}) none none
          none 0 0).1 TP_CHANNEL_GROUP_FLAG_CAN_ADD 0)
      [5, 6, 5] "again" (by decide)).2.2.2 (by decide)).2.2⟩

/-- C18: `tp_group_mixin_get_handle_owners` fails with NotAvailable if and only
if the CHANNEL_SPECIFIC_HANDLES flag is unset, which is checked before anything
else; with the flag set and all handles valid it fails with InvalidArgument,
returning no list, if and only if some input handle is not in `members`;
otherwise it returns the list, of the same length and order as the input, whose
`i`-th element is the owner mapped to the `i`-th handle, or 0 when that handle
has no owner-map entry. -/
theorem get_handle_owners_result (repo : TpHandleRepoIface)
    (obj : TpSvcChannelInterfaceGroup) (handles : List TpHandle) :
    ((∃ h, tp_group_mixin_get_handle_owners repo obj handles =
        Except.error { code := TpError.TP_ERROR_NOT_AVAILABLE, handle := h }) ↔
      obj.mixin.group_flags &&& TP_CHANNEL_GROUP_FLAG_CHANNEL_SPECIFIC_HANDLES = 0) ∧
    (obj.mixin.group_flags &&& TP_CHANNEL_GROUP_FLAG_CHANNEL_SPECIFIC_HANDLES = 0 →
      tp_group_mixin_get_handle_owners repo obj handles =
        Except.error { code := TpError.TP_ERROR_NOT_AVAILABLE, handle := none }) ∧
    (obj.mixin.group_flags &&& TP_CHANNEL_GROUP_FLAG_CHANNEL_SPECIFIC_HANDLES ≠ 0 →
      (∀ h ∈ handles, repo.is_valid h = true) →
      ((∃ h, tp_group_mixin_get_handle_owners repo obj handles =
          Except.error { code := TpError.TP_ERROR_INVALID_ARGUMENT, handle := h }) ↔
        ∃ h ∈ handles, h ∉ obj.mixin.members) ∧
      ((∀ h ∈ handles, h ∈ obj.mixin.members) →
        tp_group_mixin_get_handle_owners repo obj handles =
          Except.ok (handles.map
            (fun h => (g_hash_table_lookup obj.mixin.priv.handle_owners h).getD 0)))) := by
  refine ⟨?_, ?_, ?_⟩
  · constructor
    · rintro ⟨h, hr⟩
      by_contra hf
      unfold tp_group_mixin_get_handle_owners at hr
      rw [if_neg hf] at hr
      cases hva : tp_handles_are_valid repo handles false with
      | some e =>
        rw [hva] at hr
        have hcode := handles_are_valid_error_code repo handles false e hva
        simp only [Except.error.injEq] at hr
        rw [hr] at hcode
        exact absurd hcode (by simp)
      | none =>
        rw [hva] at hr
        simp only at hr
        rw [get_handle_owners_loop_eq] at hr
        cases hfind : List.find? (fun h => decide (h ∉ obj.mixin.members)) handles with
        | some h0 => rw [hfind] at hr; simp at hr
        | none => rw [hfind] at hr; simp at hr
    · intro hf
      exact ⟨none, by unfold tp_group_mixin_get_handle_owners; rw [if_pos hf]⟩
  · intro hf
    unfold tp_group_mixin_get_handle_owners
    rw [if_pos hf]
  · intro hf hvalid
    have hfn : tp_group_mixin_get_handle_owners repo obj handles =
        get_handle_owners_loop obj.mixin handles [] := by
      unfold tp_group_mixin_get_handle_owners
      rw [if_neg hf, (handles_are_valid_eq_none_iff repo handles).mpr hvalid]
    rw [hfn, get_handle_owners_loop_eq]
    constructor
    · cases hfind : List.find? (fun h => decide (h ∉ obj.mixin.members)) handles with
      | some h0 =>
        simp only [Except.error.injEq, GError.mk.injEq, true_and, exists_eq', true_iff]
        have hmem := List.mem_of_find?_eq_some hfind
        have hp := List.find?_some hfind
        exact ⟨h0, hmem, by simpa using hp⟩
      | none =>
        simp only [reduceCtorEq, exists_false, false_iff]
        rintro ⟨h, hh, hn⟩
        rw [List.find?_eq_none] at hfind
        have := hfind h hh
        simp [hn] at this
    · intro hall
      have hfind : List.find? (fun h => decide (h ∉ obj.mixin.members)) handles = none := by
        rw [List.find?_eq_none]
        intro h hh
        simp [hall h hh]
      rw [hfind]
      simp

theorem get_handle_owners_result_witness :
    tp_group_mixin_get_handle_owners sample_repo
      (tp_group_mixin_add_handle_owner
        (tp_group_mixin_change_flags
          (tp_group_mixin_change_members (tp_group_mixin_init 0) "" (some {10, 11}) none none
            none 0 0).1 TP_CHANNEL_GROUP_FLAG_CHANNEL_SPECIFIC_HANDLES 0) 10 20)
      [11, 10, 11] = Except.ok [0, 20, 0] :=
  ((get_handle_owners_result sample_repo
    (tp_group_mixin_add_handle_owner
      (tp_group_mixin_change_flags
        (tp_group_mixin_change_members (tp_group_mixin_init 0) "" (some {10, 11}) none none
          none 0 0).1 TP_CHANNEL_GROUP_FLAG_CHANNEL_SPECIFIC_HANDLES 0) 10 20)
    [11, 10, 11]).2.2 (by decide) (by decide)).2 (by decide)

/-- C19 fails on the code: after `tp_group_mixin_init`,
`tp_group_mixin_add_handle_owner (10, 20)` and then
`tp_group_mixin_add_handle_owner (10, 30)`, a reachable state, the owner map has
the single entry 10 -> 30, so one slot holds 10 and none holds 20, while the
mixin holds two references on 10 and one on 20: both are leaked. -/
theorem add_handle_owner_twice_leaks_references :
    Reachable (tp_group_mixin_add_handle_owner
      (tp_group_mixin_add_handle_owner (tp_group_mixin_init 0) 10 20) 10 30) ∧
    (tp_group_mixin_add_handle_owner
      (tp_group_mixin_add_handle_owner (tp_group_mixin_init 0) 10 20) 10
        30).mixin.priv.handle_owners = [(10, 30)] ∧
    tp_group_mixin_add_handle_owner_refs
      (tp_group_mixin_add_handle_owner_refs tp_group_mixin_init_refs 10 20) 10 30 10 = 2 ∧
    slots_holding (tp_group_mixin_add_handle_owner
      (tp_group_mixin_add_handle_owner (tp_group_mixin_init 0) 10 20) 10 30).mixin 10 = 1 ∧
    tp_group_mixin_add_handle_owner_refs
      (tp_group_mixin_add_handle_owner_refs tp_group_mixin_init_refs 10 20) 10 30 20 = 1 ∧
    slots_holding (tp_group_mixin_add_handle_owner
      (tp_group_mixin_add_handle_owner (tp_group_mixin_init 0) 10 20) 10 30).mixin 20 = 0 :=
  ⟨Reachable.add_handle_owner (Reachable.add_handle_owner (Reachable.init 0) 10 20) 10 30,
    by decide, by decide, by decide, by decide, by decide⟩

/-- C20: final-state equations.  For every state `(M, L, R)` and candidate sets
`A = add`, `Rm = remove`, `LP = local_pending`, `RP = remote_pending` (`NULL`
counting as empty), after `tp_group_mixin_change_members`
`members = (M ∪ A) \ (Rm ∪ LP ∪ RP)`,
`local_pending = (L ∪ LP) \ (A ∪ Rm ∪ RP)` and
`remote_pending = (R ∪ RP) \ (A ∪ Rm ∪ LP)`. -/
theorem change_members_final_sets (obj : TpSvcChannelInterfaceGroup) (message : String)
    (add remove local_pending remote_pending : Option TpIntSet) (actor : TpHandle)
    (reason : Nat) :
    (tp_group_mixin_change_members obj message add remove local_pending remote_pending
        actor reason).1.mixin.members =
      (obj.mixin.members ∪ add.getD ∅) \
        (remove.getD ∅ ∪ local_pending.getD ∅ ∪ remote_pending.getD ∅) ∧
    (tp_group_mixin_change_members obj message add remove local_pending remote_pending
        actor reason).1.mixin.local_pending =
      (obj.mixin.local_pending ∪ local_pending.getD ∅) \
        (add.getD ∅ ∪ remove.getD ∅ ∪ remote_pending.getD ∅) ∧
    (tp_group_mixin_change_members obj message add remove local_pending remote_pending
        actor reason).1.mixin.remote_pending =
      (obj.mixin.remote_pending ∪ remote_pending.getD ∅) \
        (add.getD ∅ ∪ remove.getD ∅ ∪ local_pending.getD ∅) := by
  obtain ⟨hm, hl, hr⟩ := change_members_mixin_sets obj message add remove local_pending
    remote_pending actor reason
  rw [hm, hl, hr]
  refine ⟨?_, ?_, ?_⟩ <;>
  · ext x
    simp only [Finset.mem_sdiff, Finset.mem_union]
    tauto

/-- C21: the added set reported by `tp_group_mixin_change_members` is exactly
`add` minus the `members` set as it was before the call, which is also
`(members ∪ add)` minus the previous `members`: when that set is non-empty the
call returns TRUE, and whenever the call returns TRUE the MembersChanged signal
it emits carries that set as its added array; when the call returns FALSE
nothing is reported and that set is empty.  A handle passed in `add` while
already a member is never in the reported added array. -/
theorem change_members_added_set (obj : TpSvcChannelInterfaceGroup) (message : String)
    (add remove local_pending remote_pending : Option TpIntSet) (actor : TpHandle)
    (reason : Nat) :
    (tp_group_mixin_change_members_update obj.mixin message add remove local_pending
        remote_pending actor reason).new_add = add.getD ∅ \ obj.mixin.members ∧
    (tp_group_mixin_change_members_update obj.mixin message add remove local_pending
        remote_pending actor reason).new_add =
      (obj.mixin.members ∪ add.getD ∅) \ obj.mixin.members ∧
    (∀ x, x ∈ add.getD ∅ → x ∈ obj.mixin.members →
      x ∉ (tp_group_mixin_change_members_update obj.mixin message add remove local_pending
          remote_pending actor reason).new_add ∧
      x ∉ tp_intset_to_array (tp_group_mixin_change_members_update obj.mixin message add
          remove local_pending remote_pending actor reason).new_add) ∧
    ((tp_group_mixin_change_members obj message add remove local_pending remote_pending
        actor reason).2 = true →
      ∃ removed lp rp,
        (tp_group_mixin_change_members obj message add remove local_pending remote_pending
            actor reason).1.emitted =
          obj.emitted ++
            [GroupSignal.members_changed message
              (tp_intset_to_array (add.getD ∅ \ obj.mixin.members)) removed lp rp
              actor reason]) ∧
    (add.getD ∅ \ obj.mixin.members ≠ ∅ →
      (tp_group_mixin_change_members obj message add remove local_pending remote_pending
        actor reason).2 = true ∧
      (tp_group_mixin_change_members obj message add remove local_pending remote_pending
          actor reason).1.emitted =
        obj.emitted ++
          [GroupSignal.members_changed message
            (tp_intset_to_array (add.getD ∅ \ obj.mixin.members))
            (tp_intset_to_array (remove.getD ∅ ∩ (obj.mixin.members ∪
              obj.mixin.local_pending ∪ obj.mixin.remote_pending ∪ add.getD ∅ ∪
              local_pending.getD ∅ ∪ remote_pending.getD ∅)))
            (tp_intset_to_array (local_pending.getD ∅ \ obj.mixin.local_pending))
            (tp_intset_to_array (remote_pending.getD ∅ \ obj.mixin.remote_pending))
            actor reason]) ∧
    ((tp_group_mixin_change_members obj message add remove local_pending remote_pending
        actor reason).2 = false →
      add.getD ∅ \ obj.mixin.members = ∅ ∧
      (tp_group_mixin_change_members obj message add remove local_pending remote_pending
        actor reason).1.emitted = obj.emitted) ∧
    (∀ x, x ∈ tp_intset_to_array (add.getD ∅ \ obj.mixin.members) ↔
      x ∈ add.getD ∅ ∧ x ∉ obj.mixin.members) := by
  have h1 : (tp_group_mixin_change_members_update obj.mixin message add remove local_pending
      remote_pending actor reason).new_add = add.getD ∅ \ obj.mixin.members := by
    rw [change_members_update_eq]
  have hret := change_members_ret_iff_sets obj message add remove local_pending
    remote_pending actor reason
  have hem := change_members_emitted_sets obj message add remove local_pending
    remote_pending actor reason
  refine ⟨h1, ?_, ?_, ?_, ?_, ?_, ?_⟩
  · rw [h1]
    ext x
    simp only [Finset.mem_sdiff, Finset.mem_union]
    tauto
  · intro x _ hm
    rw [mem_tp_intset_to_array, h1]
    simp [hm]
  · intro ht
    rw [hem, if_pos ht]
    exact ⟨_, _, _, rfl⟩
  · intro hne
    have ht := hret.mpr (Or.inl hne)
    refine ⟨ht, ?_⟩
    rw [hem, if_pos ht]
  · intro hf
    have hnt : ¬ (tp_group_mixin_change_members obj message add remove local_pending
        remote_pending actor reason).2 = true := by simp [hf]
    refine ⟨?_, ?_⟩
    · by_contra hne
      exact hnt (hret.mpr (Or.inl hne))
    · rw [hem, if_neg hnt]
  · intro x
    rw [mem_tp_intset_to_array, Finset.mem_sdiff]

theorem change_members_added_set_witness :
    (tp_group_mixin_change_members
        (tp_group_mixin_change_members (tp_group_mixin_init 0) "" (some {1}) none none none
          0 0).1
        "more" (some {1, 2}) none none none 3 0).2 = true ∧
    (tp_group_mixin_change_members
        (tp_group_mixin_change_members (tp_group_mixin_init 0) "" (some {1}) none none none
          0 0).1
        "more" (some {1, 2}) none none none 3 0).1.emitted =
      [GroupSignal.members_changed "" [1] [] [] [] 0 0,
       GroupSignal.members_changed "more" [2] [] [] [] 3 0] :=
  ⟨((change_members_added_set
      (tp_group_mixin_change_members (tp_group_mixin_init 0) "" (some {1}) none none none
        0 0).1
      "more" (some {1, 2}) none none none 3 0).2.2.2.2.1 (by decide)).1,
    ((change_members_added_set
      (tp_group_mixin_change_members (tp_group_mixin_init 0) "" (some {1}) none none none
        0 0).1
      "more" (some {1, 2}) none none none 3 0).2.2.2.2.1 (by decide)).2.trans (by decide)⟩

/-- C22 fails on the code: with 7 local pending under the entry
`(3, INVITED, "first")`, a call to `tp_group_mixin_change_members` listing 7
again in the `local_pending` argument with actor 4, reason 0 and message
`"second"` computes four empty deltas, returns FALSE and emits nothing, yet the
ledger entry of 7 has become `(4, 0, "second")`. -/
theorem change_members_false_yet_ledger_rewritten :
    g_hash_table_lookup (tp_group_mixin_change_members (tp_group_mixin_init 0) "first"
        none none (some {7}) none 3
        TP_CHANNEL_GROUP_CHANGE_REASON_INVITED).1.mixin.priv.local_pending_info 7 =
      some { actor := 3, reason := TP_CHANNEL_GROUP_CHANGE_REASON_INVITED,
             message := "first" } ∧
    (tp_group_mixin_change_members
      (tp_group_mixin_change_members (tp_group_mixin_init 0) "first" none none (some {7})
        none 3 TP_CHANNEL_GROUP_CHANGE_REASON_INVITED).1
      "second" none none (some {7}) none 4 0).2 = false ∧
    (tp_group_mixin_change_members
      (tp_group_mixin_change_members (tp_group_mixin_init 0) "first" none none (some {7})
        none 3 TP_CHANNEL_GROUP_CHANGE_REASON_INVITED).1
      "second" none none (some {7}) none 4 0).1.emitted =
      (tp_group_mixin_change_members (tp_group_mixin_init 0) "first" none none (some {7})
        none 3 TP_CHANNEL_GROUP_CHANGE_REASON_INVITED).1.emitted ∧
    g_hash_table_lookup (tp_group_mixin_change_members
      (tp_group_mixin_change_members (tp_group_mixin_init 0) "first" none none (some {7})
        none 3 TP_CHANNEL_GROUP_CHANGE_REASON_INVITED).1
      "second" none none (some {7}) none 4 0).1.mixin.priv.local_pending_info 7 =
      some { actor := 4, reason := 0, message := "second" } := by
  decide

/-- C23 fails on the code: 7 is local pending before and after a call to
`tp_group_mixin_change_members` that adds 8 to `members` and lists 7 again in
the `local_pending` argument; the entry of 7 was `(3, INVITED, "join us")`
before the call and is `(5, 0, "reminder")` after it. -/
theorem change_members_rewrites_entry_of_pending_handle :
    7 ∈ (tp_group_mixin_change_members (tp_group_mixin_init 0) "join us" none none
      (some {7}) none 3 TP_CHANNEL_GROUP_CHANGE_REASON_INVITED).1.mixin.local_pending ∧
    g_hash_table_lookup (tp_group_mixin_change_members (tp_group_mixin_init 0) "join us"
        none none (some {7}) none 3
        TP_CHANNEL_GROUP_CHANGE_REASON_INVITED).1.mixin.priv.local_pending_info 7 =
      some { actor := 3, reason := TP_CHANNEL_GROUP_CHANGE_REASON_INVITED,
             message := "join us" } ∧
    7 ∈ (tp_group_mixin_change_members
      (tp_group_mixin_change_members (tp_group_mixin_init 0) "join us" none none (some {7})
        none 3 TP_CHANNEL_GROUP_CHANGE_REASON_INVITED).1
      "reminder" (some {8}) none (some {7}) none 5 0).1.mixin.local_pending ∧
    g_hash_table_lookup (tp_group_mixin_change_members
      (tp_group_mixin_change_members (tp_group_mixin_init 0) "join us" none none (some {7})
        none 3 TP_CHANNEL_GROUP_CHANGE_REASON_INVITED).1
      "reminder" (some {8}) none (some {7}) none 5 0).1.mixin.priv.local_pending_info 7 =
      some { actor := 5, reason := 0, message := "reminder" } := by
  decide

/-- C25, as stated, fails: on the initial state, a call to
`tp_group_mixin_change_members` with `add = {1, 2}`, `local_pending = {1, 3}`
and `remote_pending = {2, 3}` leaves the three sets empty: 1 and 2, both in
`add`, are not in `members`, and 3 is not in `local_pending`. -/
theorem change_members_conflicting_targets_drop_handle :
    (tp_group_mixin_change_members (tp_group_mixin_init 0) "" (some {1, 2}) none
      (some {1, 3}) (some {2, 3}) 0 0).1.mixin.members = ∅ ∧
    (tp_group_mixin_change_members (tp_group_mixin_init 0) "" (some {1, 2}) none
      (some {1, 3}) (some {2, 3}) 0 0).1.mixin.local_pending = ∅ ∧
    (tp_group_mixin_change_members (tp_group_mixin_init 0) "" (some {1, 2}) none
      (some {1, 3}) (some {2, 3}) 0 0).1.mixin.remote_pending = ∅ := by
  decide

/-- C25, amended: in `tp_group_mixin_change_members`, a handle that is in more
than one candidate set ends up in none of the three sets, since each set is
stripped of every candidate set but its own: one in both `add` and the
`local_pending` argument, one in both `add` and the `remote_pending` argument,
and one in both the `local_pending` and `remote_pending` arguments are, after
the call, in neither `members` nor `local_pending` nor `remote_pending`. -/
theorem change_members_no_tie_break (obj : TpSvcChannelInterfaceGroup)
    (message : String) (add remove local_pending remote_pending : Option TpIntSet)
    (actor : TpHandle) (reason : Nat) (x : TpHandle)
    (hx : (x ∈ add.getD ∅ ∧ x ∈ local_pending.getD ∅) ∨
      (x ∈ add.getD ∅ ∧ x ∈ remote_pending.getD ∅) ∨
      (x ∈ local_pending.getD ∅ ∧ x ∈ remote_pending.getD ∅)) :
    x ∉ (tp_group_mixin_change_members obj message add remove local_pending remote_pending
      actor reason).1.mixin.members ∧
    x ∉ (tp_group_mixin_change_members obj message add remove local_pending remote_pending
      actor reason).1.mixin.local_pending ∧
    x ∉ (tp_group_mixin_change_members obj message add remove local_pending remote_pending
      actor reason).1.mixin.remote_pending := by
  obtain ⟨hm, hl, hr⟩ := change_members_mixin_sets obj message add remove local_pending
    remote_pending actor reason
  rw [hm, hl, hr]
  simp only [Finset.mem_sdiff, Finset.mem_union]
  refine ⟨?_, ?_, ?_⟩ <;> tauto

theorem change_members_no_tie_break_witness :
    1 ∉ (tp_group_mixin_change_members
      (tp_group_mixin_change_members (tp_group_mixin_init 0) "" (some {1}) none none none
        0 0).1
      "" (some {1}) none (some {1}) none 0 0).1.mixin.members :=
  (change_members_no_tie_break
    (tp_group_mixin_change_members (tp_group_mixin_init 0) "" (some {1}) none none none
      0 0).1
    "" (some {1}) none (some {1}) none 0 0 1 (Or.inl ⟨by decide, by decide⟩)).1

/-- C26: exact removed set.  For every state `(M, L, R)` and candidate sets `A`,
`Rm`, `LP`, `RP`, the removed set reported by `tp_group_mixin_change_members`
is `Rm ∩ (M ∪ L ∪ R ∪ A ∪ LP ∪ RP)`: when that set is non-empty the call returns
TRUE, whenever the call returns TRUE the MembersChanged signal it emits carries
that set as its removed array, and when the call returns FALSE nothing is
reported and that set is empty.  So the reported array holds only handles of
`remove`, it does not hold a member that merely moved to a pending set, and a
handle listed in both `add` and `remove` makes the call return TRUE and is in
the reported array even if it was in none of the three sets before the call. -/
theorem change_members_removed_set (obj : TpSvcChannelInterfaceGroup) (message : String)
    (add remove local_pending remote_pending : Option TpIntSet) (actor : TpHandle)
    (reason : Nat) :
    (tp_group_mixin_change_members_update obj.mixin message add remove local_pending
        remote_pending actor reason).new_remove =
      remove.getD ∅ ∩ (obj.mixin.members ∪ obj.mixin.local_pending ∪
        obj.mixin.remote_pending ∪ add.getD ∅ ∪ local_pending.getD ∅ ∪
        remote_pending.getD ∅) ∧
    (tp_group_mixin_change_members_update obj.mixin message add remove local_pending
        remote_pending actor reason).new_remove ⊆ remove.getD ∅ ∧
    (∀ x, x ∈ obj.mixin.members →
      x ∈ local_pending.getD ∅ ∪ remote_pending.getD ∅ → x ∉ remove.getD ∅ →
      x ∉ (tp_group_mixin_change_members_update obj.mixin message add remove local_pending
          remote_pending actor reason).new_remove) ∧
    (∀ x, x ∈ add.getD ∅ → x ∈ remove.getD ∅ →
      x ∈ (tp_group_mixin_change_members_update obj.mixin message add remove local_pending
          remote_pending actor reason).new_remove) ∧
    ((tp_group_mixin_change_members obj message add remove local_pending remote_pending
        actor reason).2 = true →
      ∃ added lp rp,
        (tp_group_mixin_change_members obj message add remove local_pending remote_pending
            actor reason).1.emitted =
          obj.emitted ++
            [GroupSignal.members_changed message added
              (tp_intset_to_array (remove.getD ∅ ∩ (obj.mixin.members ∪
                obj.mixin.local_pending ∪ obj.mixin.remote_pending ∪ add.getD ∅ ∪
                local_pending.getD ∅ ∪ remote_pending.getD ∅))) lp rp
              actor reason]) ∧
    (remove.getD ∅ ∩ (obj.mixin.members ∪ obj.mixin.local_pending ∪
        obj.mixin.remote_pending ∪ add.getD ∅ ∪ local_pending.getD ∅ ∪
        remote_pending.getD ∅) ≠ ∅ →
      (tp_group_mixin_change_members obj message add remove local_pending remote_pending
        actor reason).2 = true ∧
      (tp_group_mixin_change_members obj message add remove local_pending remote_pending
          actor reason).1.emitted =
        obj.emitted ++
          [GroupSignal.members_changed message
            (tp_intset_to_array (add.getD ∅ \ obj.mixin.members))
            (tp_intset_to_array (remove.getD ∅ ∩ (obj.mixin.members ∪
              obj.mixin.local_pending ∪ obj.mixin.remote_pending ∪ add.getD ∅ ∪
              local_pending.getD ∅ ∪ remote_pending.getD ∅)))
            (tp_intset_to_array (local_pending.getD ∅ \ obj.mixin.local_pending))
            (tp_intset_to_array (remote_pending.getD ∅ \ obj.mixin.remote_pending))
            actor reason]) ∧
    ((tp_group_mixin_change_members obj message add remove local_pending remote_pending
        actor reason).2 = false →
      remove.getD ∅ ∩ (obj.mixin.members ∪ obj.mixin.local_pending ∪
        obj.mixin.remote_pending ∪ add.getD ∅ ∪ local_pending.getD ∅ ∪
        remote_pending.getD ∅) = ∅ ∧
      (tp_group_mixin_change_members obj message add remove local_pending remote_pending
        actor reason).1.emitted = obj.emitted) ∧
    (∀ x, x ∈ add.getD ∅ → x ∈ remove.getD ∅ →
      (tp_group_mixin_change_members obj message add remove local_pending remote_pending
        actor reason).2 = true ∧
      ∃ added removed lp rp,
        (tp_group_mixin_change_members obj message add remove local_pending remote_pending
            actor reason).1.emitted =
          obj.emitted ++
            [GroupSignal.members_changed message added removed lp rp actor reason] ∧
        x ∈ removed) ∧
    (∀ x, x ∈ tp_intset_to_array (remove.getD ∅ ∩ (obj.mixin.members ∪
        obj.mixin.local_pending ∪ obj.mixin.remote_pending ∪ add.getD ∅ ∪
        local_pending.getD ∅ ∪ remote_pending.getD ∅)) →
      x ∈ remove.getD ∅) ∧
    (∀ x, x ∈ obj.mixin.members →
      x ∈ local_pending.getD ∅ ∪ remote_pending.getD ∅ → x ∉ remove.getD ∅ →
      x ∉ tp_intset_to_array (remove.getD ∅ ∩ (obj.mixin.members ∪
        obj.mixin.local_pending ∪ obj.mixin.remote_pending ∪ add.getD ∅ ∪
        local_pending.getD ∅ ∪ remote_pending.getD ∅))) := by
  have h1 : (tp_group_mixin_change_members_update obj.mixin message add remove local_pending
      remote_pending actor reason).new_remove =
      remove.getD ∅ ∩ (obj.mixin.members ∪ obj.mixin.local_pending ∪
        obj.mixin.remote_pending ∪ add.getD ∅ ∪ local_pending.getD ∅ ∪
        remote_pending.getD ∅) := by
    rw [change_members_update_eq]
    exact removed_set_eq _ _ _ _ _ _ _
  have hret := change_members_ret_iff_sets obj message add remove local_pending
    remote_pending actor reason
  have hem := change_members_emitted_sets obj message add remove local_pending
    remote_pending actor reason
  refine ⟨h1, ?_, ?_, ?_, ?_, ?_, ?_, ?_, ?_, ?_⟩
  · rw [h1]
    exact Finset.inter_subset_left
  · intro x _ _ hr
    rw [h1]
    simp [hr]
  · intro x ha hr
    rw [h1]
    simp [ha, hr]
  · intro ht
    rw [hem, if_pos ht]
    exact ⟨_, _, _, rfl⟩
  · intro hne
    have ht := hret.mpr (Or.inr (Or.inl hne))
    refine ⟨ht, ?_⟩
    rw [hem, if_pos ht]
  · intro hf
    have hnt : ¬ (tp_group_mixin_change_members obj message add remove local_pending
        remote_pending actor reason).2 = true := by simp [hf]
    refine ⟨?_, ?_⟩
    · by_contra hne
      exact hnt (hret.mpr (Or.inr (Or.inl hne)))
    · rw [hem, if_neg hnt]
  · intro x ha hr
    have hx : x ∈ remove.getD ∅ ∩ (obj.mixin.members ∪ obj.mixin.local_pending ∪
        obj.mixin.remote_pending ∪ add.getD ∅ ∪ local_pending.getD ∅ ∪
        remote_pending.getD ∅) := by
      simp [ha, hr]
    have ht := hret.mpr (Or.inr (Or.inl (Finset.ne_empty_of_mem hx)))
    rw [if_pos ht] at hem
    exact ⟨ht, _, _, _, _, hem, (mem_tp_intset_to_array _ x).mpr hx⟩
  · intro x hx
    rw [mem_tp_intset_to_array] at hx
    exact (Finset.mem_inter.mp hx).1
  · intro x _ _ hr hx
    rw [mem_tp_intset_to_array] at hx
    exact hr (Finset.mem_inter.mp hx).1

theorem change_members_removed_set_witness :
    (tp_group_mixin_change_members (tp_group_mixin_init 0) "both" (some {5}) (some {5, 6})
      none none 0 0).2 = true ∧
    (tp_group_mixin_change_members (tp_group_mixin_init 0) "both" (some {5}) (some {5, 6})
      none none 0 0).1.emitted = [GroupSignal.members_changed "both" [5] [5] [] [] 0 0] :=
  ⟨((change_members_removed_set (tp_group_mixin_init 0) "both" (some {5}) (some {5, 6})
      none none 0 0).2.2.2.2.2.1 (by decide)).1,
    ((change_members_removed_set (tp_group_mixin_init 0) "both" (some {5}) (some {5, 6})
      none none 0 0).2.2.2.2.2.1 (by decide)).2.trans (by decide)⟩

/-- C28: from a state with pairwise disjoint `members`, `local_pending`,
`remote_pending` and for pairwise disjoint candidate sets,
`tp_group_mixin_change_members` returns TRUE if and only if at least one of the
three sets after the call differs from its value before the call. -/
theorem change_members_true_iff_changed (obj : TpSvcChannelInterfaceGroup)
    (message : String) (add remove local_pending remote_pending : Option TpIntSet)
    (actor : TpHandle) (reason : Nat)
    (hdisj : MembershipDisjoint obj.mixin)
    (har : Disjoint (add.getD ∅) (remove.getD ∅))
    (hal : Disjoint (add.getD ∅) (local_pending.getD ∅))
    (hap : Disjoint (add.getD ∅) (remote_pending.getD ∅))
    (hrl : Disjoint (remove.getD ∅) (local_pending.getD ∅))
    (hrp : Disjoint (remove.getD ∅) (remote_pending.getD ∅))
    (hlp : Disjoint (local_pending.getD ∅) (remote_pending.getD ∅)) :
    (tp_group_mixin_change_members obj message add remove local_pending remote_pending
        actor reason).2 = true ↔
      ((tp_group_mixin_change_members obj message add remove local_pending remote_pending
          actor reason).1.mixin.members ≠ obj.mixin.members ∨
        (tp_group_mixin_change_members obj message add remove local_pending remote_pending
          actor reason).1.mixin.local_pending ≠ obj.mixin.local_pending ∨
        (tp_group_mixin_change_members obj message add remove local_pending remote_pending
          actor reason).1.mixin.remote_pending ≠ obj.mixin.remote_pending) := by
  obtain ⟨hm, hl, hr⟩ := change_members_mixin_sets obj message add remove local_pending
    remote_pending actor reason
  obtain ⟨d1, d2, d3⟩ := hdisj
  have key := deltas_empty_iff_unchanged _ _ _ _ _ _ _ d1 d2 d3 har hal hap hrl hrp hlp
  rw [hm, hl, hr, change_members_ret_iff, change_members_update_eq]
  simp only [removed_set_eq]
  constructor
  · intro h
    by_contra hc
    simp only [not_or, not_not] at hc
    obtain ⟨k1, k2, k3, k4⟩ := key.mpr hc
    rcases h with h | h | h | h
    · exact h k1
    · exact h k2
    · exact h k3
    · exact h k4
  · intro h
    by_contra hc
    simp only [not_or, not_not] at hc
    obtain ⟨k1, k2, k3⟩ := key.mp hc
    rcases h with h | h | h
    · exact h k1
    · exact h k2
    · exact h k3

theorem change_members_true_iff_changed_witness :
    (tp_group_mixin_change_members
        (tp_group_mixin_change_members (tp_group_mixin_init 0) "" (some {1, 2}) none
          (some {7}) (some {8}) 0 0).1
        "move" (some {7}) (some {1}) (some {8}) (some {2}) 3 0).2 = true :=
  (change_members_true_iff_changed
    (tp_group_mixin_change_members (tp_group_mixin_init 0) "" (some {1, 2}) none
      (some {7}) (some {8}) 0 0).1
    "move" (some {7}) (some {1}) (some {8}) (some {2}) 3 0
    (by decide) (by decide) (by decide) (by decide) (by decide) (by decide)
    (by decide)).mpr (Or.inl (by decide))

/-- C29: for every flag value `f` and masks `add_mask`, `remove_mask`, overlapping
or not, `tp_group_mixin_change_flags` leaves the flags equal to
`(f OR add_mask) AND NOT remove_mask`, so a bit present in both masks ends up
cleared; and applying the same call twice leaves the same flags as applying it
once. -/
theorem change_flags_final_value (obj : TpSvcChannelInterfaceGroup) (add remove : Nat) :
    (tp_group_mixin_change_flags obj add remove).mixin.group_flags =
      (obj.mixin.group_flags ||| add) &&& guint_not remove ∧
    (∀ i, add.testBit i = true → remove.testBit i = true →
      (tp_group_mixin_change_flags obj add remove).mixin.group_flags.testBit i = false) ∧
    (tp_group_mixin_change_flags (tp_group_mixin_change_flags obj add remove) add
        remove).mixin.group_flags =
      (tp_group_mixin_change_flags obj add remove).mixin.group_flags := by
  have h1 : ∀ o : TpSvcChannelInterfaceGroup,
      (tp_group_mixin_change_flags o add remove).mixin.group_flags =
        (o.mixin.group_flags ||| add) &&& guint_not remove := by
    intro o
    rw [change_flags_group_flags, change_flags_final_flags]
  refine ⟨h1 obj, ?_, ?_⟩
  · intro i _ hr
    rw [h1 obj]
    simp [Nat.testBit_and, testBit_guint_not, hr]
  · rw [h1 (tp_group_mixin_change_flags obj add remove), h1 obj, final_flags_idempotent]

theorem change_flags_final_value_witness :
    (tp_group_mixin_change_flags (tp_group_mixin_change_flags (tp_group_mixin_init 0) 3 0)
      6 2).mixin.group_flags = 5 :=
  ((change_flags_final_value (tp_group_mixin_change_flags (tp_group_mixin_init 0) 3 0)
    6 2).1).trans (by decide)

/-- C30: `tp_group_mixin_get_self_handle` always succeeds; it returns the stored
`self_handle` if that handle is in `members`, `local_pending` or
`remote_pending`, and 0 otherwise, so 0 right after `tp_group_mixin_init`
whatever self handle was given; it leaves the object as it was. -/
theorem get_self_handle_result (obj : TpSvcChannelInterfaceGroup) :
    (∃ h, (tp_group_mixin_get_self_handle obj).2 = Except.ok h) ∧
    ((obj.mixin.self_handle ∈ obj.mixin.members ∨
        obj.mixin.self_handle ∈ obj.mixin.local_pending ∨
        obj.mixin.self_handle ∈ obj.mixin.remote_pending) →
      (tp_group_mixin_get_self_handle obj).2 = Except.ok obj.mixin.self_handle) ∧
    (¬ (obj.mixin.self_handle ∈ obj.mixin.members ∨
        obj.mixin.self_handle ∈ obj.mixin.local_pending ∨
        obj.mixin.self_handle ∈ obj.mixin.remote_pending) →
      (tp_group_mixin_get_self_handle obj).2 = Except.ok 0) ∧
    (∀ self_handle,
      (tp_group_mixin_get_self_handle (tp_group_mixin_init self_handle)).2 = Except.ok 0) ∧
    (tp_group_mixin_get_self_handle obj).1 = obj := by
  have hcond : (tp_handle_set_is_member obj.mixin.members obj.mixin.self_handle = true ∨
      tp_handle_set_is_member obj.mixin.local_pending obj.mixin.self_handle = true ∨
      tp_handle_set_is_member obj.mixin.remote_pending obj.mixin.self_handle = true) ↔
      (obj.mixin.self_handle ∈ obj.mixin.members ∨
        obj.mixin.self_handle ∈ obj.mixin.local_pending ∨
        obj.mixin.self_handle ∈ obj.mixin.remote_pending) := by
    simp [tp_handle_set_is_member]
  refine ⟨?_, ?_, ?_, ?_, ?_⟩
  · unfold tp_group_mixin_get_self_handle
    simp only
    split
    · exact ⟨_, rfl⟩
    · exact ⟨_, rfl⟩
  · intro h
    unfold tp_group_mixin_get_self_handle
    simp only
    rw [if_pos (hcond.mpr h)]
  · intro h
    unfold tp_group_mixin_get_self_handle
    simp only
    rw [if_neg (fun hc => h (hcond.mp hc))]
  · intro s
    unfold tp_group_mixin_get_self_handle
    simp [tp_group_mixin_init, tp_handle_set_is_member]
  · unfold tp_group_mixin_get_self_handle
    simp only
    split <;> rfl

theorem get_self_handle_result_witness :
    (tp_group_mixin_get_self_handle
      (tp_group_mixin_change_members (tp_group_mixin_init 5) "" none none (some {5}) none
        0 0).1).2 = Except.ok 5 :=
  (get_self_handle_result
    (tp_group_mixin_change_members (tp_group_mixin_init 5) "" none none (some {5}) none
      0 0).1).2.1 (Or.inr (Or.inl (by decide)))

end GroupMixin
